import Mathlib

/-!
Verification development for the A-SWARM core pipeline.

Shallow embedding, in Lean, of the parts of the repository that the
verified properties talk about:

* `src/prototype/sentinel/fast_path_v4.py` — the v3 fast-path UDP sender
  (`FastPathSender._build_packet`, `send_elevation`);
* `src/prototype/pheromone/udp_listener_v4.py` — the v4 listener
  (`FastPathListener._process_packet`, `_receive_loop`, counters);
* `src/prototype/pheromone/gossip_v2.py` and `signal_types.py` — the
  quorum aggregator (`compute_sliding_window_quorum`, `should_elevate`,
  elevation artifacts);
* `src/prototype/sentinel/telemetry_v2.py` — per-tick anomaly scoring;
* `src/prototype/actuators/microact_catalog_v2.py` — the micro-act
  catalog (`execute`, TTL revert table, TTL monitor).

Bytes are modelled as natural numbers below 256 in lists; Python machine
arithmetic is modelled with `Nat`/`Int`/`Rat` and explicit range checks
where `struct.pack` would raise.  External primitives the code calls
(HMAC-SHA-256, SHA-256, `json.loads`, ISO-8601 parsing, the clock, and
`kubectl` subprocesses) are parameters of the model, constrained only by
what the code relies on (e.g. a 32-byte tag).
-/

namespace ASwarm

/-- Big-endian base-256 digits of `n`, exactly `k` bytes (most significant first),
as produced by `struct.pack` for a `k`-byte unsigned field holding an in-range value. -/
def beBytes : Nat → Nat → List Nat
  | 0, _ => []
  | k + 1, n => beBytes k (n / 256) ++ [n % 256]

/-- Big-endian value of a byte list, as recovered by `struct.unpack`. -/
def beVal (bs : List Nat) : Nat := bs.foldl (fun a b => a * 256 + b) 0

/-- Replace-or-append on an association list (model of `dict.__setitem__`). -/
def setAssoc [DecidableEq κ] (k : κ) (v : α) : List (κ × α) → List (κ × α)
  | [] => [(k, v)]
  | (k2, v2) :: t => if k2 = k then (k, v) :: t else (k2, v2) :: setAssoc k v t


namespace FastPath

def MAGIC : List Nat := [65, 83, 87, 77]

/-- `HMAC_SIZE = 32`. -/
def HMAC_SIZE : Nat := 32

/-- `MAX_PACKET_SIZE = 1200`. -/
def MAX_PACKET_SIZE : Nat := 1200

/-- `struct.calcsize('!4sBBQLHLHB') = 27` (v3 header). -/
def V3_HEADER_SIZE : Nat := 27

/-- Sender payload budget for v3: `MAX_PACKET_SIZE - header_size - HMAC_SIZE = 1141`. -/
def v3PayloadBudget : Nat := MAX_PACKET_SIZE - V3_HEADER_SIZE - HMAC_SIZE

/-- `nonce32 = secrets.randbits(32) ^ (seq16 | (seq32 << 16))`
(fast_path_v4.py line 284). -/
def nonce32 (rand seq16 seq32 : Nat) : Nat := rand ^^^ (seq16 ||| (seq32 <<< 16))

/-- Byte image of `struct.pack('!4sBBQLHLHB', MAGIC, V3, TYPE_ELEVATION, ts, src, seq,
nonce, plen, kid)` for in-range fields. -/
def v3HeaderBytes (ts src seq non plen kid : Nat) : List Nat :=
  MAGIC ++ beBytes 1 3 ++ beBytes 1 1 ++ beBytes 8 ts ++ beBytes 4 src ++
    beBytes 2 seq ++ beBytes 4 non ++ beBytes 2 plen ++ beBytes 1 kid

/-- `struct.pack` for the v3 header: `none` models `struct.error` (a field out of
range for its format letter: `Q` needs `< 2^64`, `L` `< 2^32`, `H` `< 2^16`, `B` `< 2^8`). -/
def packV3Header (ts src seq non plen kid : Nat) : Option (List Nat) :=
  if ts < 2 ^ 64 ∧ src < 2 ^ 32 ∧ seq < 2 ^ 16 ∧ non < 2 ^ 32 ∧ plen < 2 ^ 16 ∧ kid < 2 ^ 8
  then some (v3HeaderBytes ts src seq non plen kid) else none

/-- `FastPathSender._build_packet` for protocol version 3 (lines 273-317).
`seqCounter` is `self.sequence` at call time (send_elevation has already
incremented it), so `seq32 = seqCounter - 1`; `rand` stands for
`secrets.randbits(32)`; `mac key data` stands for
`hmac.new(key, data, sha256).digest()`.  JSON payload assembly happens in the
caller; here the payload is its encoded bytes.  `none` models `struct.error`
escaping `_build_packet`. -/
def buildPacketV3 (mac : List Nat → List Nat → List Nat) (key : List Nat)
    (tsUnixMs srcId seq16 seqCounter rand keyId : Nat)
    (payload : List Nat) : Option (List Nat) :=
  let non := nonce32 rand seq16 (seqCounter - 1)
  match packV3Header tsUnixMs srcId seq16 non payload.length keyId with
  | none => none
  | some header => some (header ++ payload ++ mac key (header ++ payload))

/-- Sender state: the 32-bit-intended sequence counter (`self.sequence`,
a plain unbounded Python int incremented under `sequence_lock`). -/
structure SenderState where
  sequence : Nat

/-- `FastPathSender.send_elevation` (lines 172-271), reduced to its sequence
handling and packet construction: the counter is read and incremented first
(lines 183-187: `seq32 = self.sequence; seq16 = self.sequence & 0xFFFF;
self.sequence += 1`), the encoded payload is checked against the budget
(line 208, `ValueError`), then `_build_packet` runs; an exception leaves the
counter incremented.  `.error` models the raised exception. -/
def sendElevation (mac : List Nat → List Nat → List Nat) (key : List Nat)
    (tsUnixMs srcId rand keyId : Nat) (payload : List Nat)
    (st : SenderState) : Except String (List Nat) × SenderState :=
  let seq16 := st.sequence % 2 ^ 16
  let st' : SenderState := ⟨st.sequence + 1⟩
  if payload.length > v3PayloadBudget then
    (.error "payload exceeds budget", st')
  else
    match buildPacketV3 mac key tsUnixMs srcId seq16 (st.sequence + 1) rand keyId payload with
    | none => (.error "struct.error", st')
    | some pkt => (.ok pkt, st')

end FastPath

namespace Listener

structure V3Header where
  magic : List Nat
  version : Nat
  ptype : Nat
  tsUnixMs : Nat
  srcId : Nat
  seq16 : Nat
  nonce32 : Nat
  payloadLen : Nat
  keyId : Nat
deriving Repr, DecidableEq

/-- `struct.unpack('!4sBBQLHLHB', data[:27])`: big-endian field extraction at the
fixed offsets of the v3 header.  Total (the 27 bytes are always available once the
listener's size check has passed, so `struct.error` is unreachable there). -/
def unpackV3Header (bs : List Nat) : V3Header where
  magic := bs.take 4
  version := beVal ((bs.drop 4).take 1)
  ptype := beVal ((bs.drop 5).take 1)
  tsUnixMs := beVal ((bs.drop 6).take 8)
  srcId := beVal ((bs.drop 14).take 4)
  seq16 := beVal ((bs.drop 18).take 2)
  nonce32 := beVal ((bs.drop 20).take 4)
  payloadLen := beVal ((bs.drop 24).take 2)
  keyId := beVal ((bs.drop 26).take 1)

/-- `MAX_PAYLOAD = 1200 - HEADER_SIZE - HMAC_SIZE = 1141` (udp_listener_v4.py line 43). -/
def MAX_PAYLOAD : Nat := 1200 - 27 - 32

/-- JSON values, as returned by `json.loads`. -/
inductive J where
  | null
  | bool (b : Bool)
  | num (q : ℚ)
  | str (s : String)
  | arr (xs : List J)
  | obj (kvs : List (String × J))

/-- Python truthiness (`if wall_ts:`) on a JSON value. -/
def J.truthy : J → Bool
  | .null => false
  | .bool b => b
  | .num q => q ≠ 0
  | .str s => s ≠ ""
  | .arr xs => ¬ xs.isEmpty
  | .obj kvs => ¬ kvs.isEmpty

/-- `dict.get` on a decoded JSON object. -/
def jGet (kvs : List (String × J)) (k : String) : Option J := List.lookup k kvs

/-- Counters of `Stats.__init__` (udp_listener_v4.py lines 116-130). -/
structure Stats where
  received : Nat := 0
  valid : Nat := 0
  invalidMagic : Nat := 0
  invalidVersion : Nat := 0
  invalidType : Nat := 0
  invalidKey : Nat := 0
  invalidHmac : Nat := 0
  invalidJson : Nat := 0
  replays : Nat := 0
  stale : Nat := 0
  droppedQueueFull : Nat := 0
  droppedOldest : Nat := 0
  rateLimited : Nat := 0
deriving Repr, DecidableEq

/-- Sum of the terminal counters (everything except `received`): a packet's final
disposition.  `dropped_queue_full` and `dropped_oldest` are the `dropped_*`
counters of the spec; `replays` serves both replay checks. -/
def terminalTotal (s : Stats) : Nat :=
  s.valid + s.invalidMagic + s.invalidVersion + s.invalidType + s.invalidKey +
    s.invalidHmac + s.invalidJson + s.replays + s.stale + s.droppedQueueFull +
    s.droppedOldest + s.rateLimited

/-- Per-source replay window step (udp_listener_v4.py lines 552-573): entry is
`(highest_seq, seen_seqs)`; returns `(accepted, updated entry)`.  The comparison
`seq16 <= highest_seq - 256` is over unbounded Python ints, hence `Int` here. -/
def seqCheck (seq16 : Nat) (e : Nat × List Nat) : Bool × (Nat × List Nat) :=
  if (seq16 : Int) ≤ (e.1 : Int) - 256 then (false, e)
  else if seq16 ∈ e.2 then (false, e)
  else
    let highest := if seq16 > e.1 then seq16 else e.1
    let seen := seq16 :: e.2
    let seen := if seen.length > 256 then
        seen.filter (fun (s : Nat) => (highest : Int) - 255 ≤ (s : Int)) else seen
    (true, (highest, seen))

/-- Mutable listener state shared by the workers: `src_sequences` and the
packet-hash `replay_cache` (insertion order retained for the expiry deque). -/
structure LState where
  srcSequences : List (Nat × (Nat × List Nat))
  replayCache : List (List Nat)

/-- Environment of one `_process_packet` call: the key table, the external
primitives the code calls (HMAC-SHA-256, SHA-256 truncated to 16 bytes,
`json.loads`, ISO-8601 parsing) and the clock readings
(`int(time.time()*1000)` for the header age check, `time.time()` for the
`wall_ts` check). -/
structure Env where
  keys : Nat → Option (List Nat)
  mac : List Nat → List Nat → List Nat
  phash : List Nat → List Nat
  jdec : List Nat → Option J
  parseIso : String → Option ℚ
  nowMs : Int
  wallNow : ℚ
  staleWindowSec : Nat

/-- Transport metadata attached to the payload as `payload_data['_fastpath']`
(udp_listener_v4.py lines 616-625; `src_id` and `nonce32` are stored as hex
strings of these numbers). -/
structure Meta where
  sourceIp : String
  sourcePort : Nat
  srcId : Nat
  seq16 : Nat
  nonce32 : Nat
  keyId : Nat
  tsUnixMs : Nat
  ageMs : Nat
deriving Repr, DecidableEq

/-- Disposition of one packet through `_process_packet`.  The silent outcomes
(`dropShort`, `headerShape`, `sizeMismatch`) return without touching a counter;
`workerError` models the `AttributeError` raised by `payload_data.get` on a
non-object JSON payload, caught in `_process_loop` (line 486). -/
inductive Outcome where
  | dropShort
  | invalidMagic
  | invalidVersion
  | invalidType
  | oversizePayload
  | sizeMismatch
  | invalidKey
  | stale
  | invalidHmac
  | replaySeq
  | replayHash
  | invalidJson
  | workerError
  | staleWall
  | delivered (payload : J) (meta : Meta)

/-- The `float(wall_ts)` / ISO branch of the secondary staleness check
(udp_listener_v4.py lines 594-600): `none` models the caught
`ValueError`/`TypeError`. -/
def wallEpoch (env : Env) : J → Option ℚ
  | .str s => env.parseIso s
  | .num q => some q
  | .bool b => some (if b then 1 else 0)
  | _ => none

/-- Secondary staleness check on the decoded payload (lines 591-610): applies only
when a truthy `wall_ts` is present and parseable; compares
`max(0, (time.time() - wall_epoch) * 1000)` against `stale_window_sec * 1000`. -/
def wallStale (env : Env) (kvs : List (String × J)) : Bool :=
  match jGet kvs "wall_ts" with
  | none => false
  | some v =>
    if v.truthy then
      match wallEpoch env v with
      | none => false
      | some e => decide ((max 0 ((env.wallNow - e) * 1000)) > (env.staleWindowSec : ℚ) * 1000)
    else false

/-- `FastPathListener._process_packet` (udp_listener_v4.py lines 489-631): the
validation pipeline over one datagram, returning the updated shared state, the
updated counters and the packet's disposition. -/
def processPacket (env : Env) (st : LState) (stats : Stats) (data : List Nat)
    (addr : String × Nat) : LState × Stats × Outcome :=
  if data.length < 27 + 32 then (st, stats, .dropShort)
  else
    let h := unpackV3Header data
    if h.magic ≠ FastPath.MAGIC then
      (st, { stats with invalidMagic := stats.invalidMagic + 1 }, .invalidMagic)
    else if h.version ≠ 3 then
      (st, { stats with invalidVersion := stats.invalidVersion + 1 }, .invalidVersion)
    else if h.ptype ≠ 1 then
      (st, { stats with invalidType := stats.invalidType + 1 }, .invalidType)
    else if h.payloadLen > MAX_PAYLOAD then (st, stats, .oversizePayload)
    else if data.length ≠ 27 + h.payloadLen + 32 then (st, stats, .sizeMismatch)
    else
      let payload := (data.drop 27).take h.payloadLen
      match env.keys h.keyId with
      | none => (st, { stats with invalidKey := stats.invalidKey + 1 }, .invalidKey)
      | some key =>
        let ageMs := (env.nowMs - (h.tsUnixMs : Int)).natAbs
        if ageMs > 5000 then (st, { stats with stale := stats.stale + 1 }, .stale)
        else if data.drop (27 + h.payloadLen) ≠ env.mac key (data.take (27 + h.payloadLen)) then
          (st, { stats with invalidHmac := stats.invalidHmac + 1 }, .invalidHmac)
        else
          let entry := ((st.srcSequences.lookup h.srcId).getD (0, []))
          let checked := seqCheck h.seq16 entry
          if ¬ checked.1 then
            (st, { stats with replays := stats.replays + 1 }, .replaySeq)
          else
            let st1 : LState :=
              { st with srcSequences := setAssoc h.srcId checked.2 st.srcSequences }
            let ph := env.phash data
            if ph ∈ st1.replayCache then
              (st1, { stats with replays := stats.replays + 1 }, .replayHash)
            else
              let st2 : LState := { st1 with replayCache := st1.replayCache ++ [ph] }
              match env.jdec payload with
              | none => (st2, { stats with invalidJson := stats.invalidJson + 1 }, .invalidJson)
              | some (.obj kvs) =>
                if wallStale env kvs then
                  (st2, { stats with stale := stats.stale + 1 }, .staleWall)
                else
                  (st2, { stats with valid := stats.valid + 1 },
                    .delivered (.obj kvs)
                      { sourceIp := addr.1, sourcePort := addr.2, srcId := h.srcId,
                        seq16 := h.seq16, nonce32 := h.nonce32, keyId := h.keyId,
                        tsUnixMs := h.tsUnixMs, ageMs := ageMs })
              | some _ => (st2, stats, .workerError)

/-- Disposition of one datagram in `_receive_loop` before any worker sees it. -/
inductive RecvOutcome where
  | filtered
  | rateLimited
  | queued (droppedOldest : Bool)
deriving Repr, DecidableEq

/-- `FastPathListener._allow_ip` (udp_listener_v4.py lines 717-730): per-IP token
bucket, capacity 100, fill 50 tokens/s; increments `rate_limited` on refusal. -/
def allowIp (now : ℚ) (ip : String) (buckets : List (String × (ℚ × ℚ)))
    (stats : Stats) : Bool × List (String × (ℚ × ℚ)) × Stats :=
  let tl := (buckets.lookup ip).getD (100, now)
  let tokens := min 100 (tl.1 + max 0 (now - tl.2) * 50)
  if tokens < 1 then
    (false, setAssoc ip (tokens, now) buckets,
      { stats with rateLimited := stats.rateLimited + 1 })
  else
    (true, setAssoc ip (tokens - 1, now) buckets, stats)

/-- `RingBuffer.push` with drop-oldest (lines 81-89, `deque(maxlen=capacity)`):
returns the new ring and whether an oldest entry was evicted. -/
def ringPush (cap : Nat) (ring : List α) (x : α) : List α × Bool :=
  if ring.length ≥ cap then (ring.drop 1 ++ [x], true) else (ring ++ [x], false)

/-- One iteration of `_receive_loop` for a received datagram (lines 422-449):
`received` counter, CIDR allow-list filter (`cidrOk = false` means the allow-list
is non-empty and the source address is in none of its networks — a silent
`continue`), per-IP token bucket, ring push with drop-oldest.  The ring's
internal drop count reaches `dropped_oldest` through `_maintenance_loop`
(lines 654-657); here that transfer is the immediate increment it amounts to. -/
def receiveStep (cap : Nat) (cidrOk : Bool) (now : ℚ) (ip : String)
    (pkt : List Nat) (ring : List (List Nat)) (buckets : List (String × (ℚ × ℚ)))
    (stats : Stats) :
    List (List Nat) × List (String × (ℚ × ℚ)) × Stats × RecvOutcome :=
  let stats1 := { stats with received := stats.received + 1 }
  if ¬ cidrOk then (ring, buckets, stats1, .filtered)
  else
    let a := allowIp now ip buckets stats1
    if a.1 then
      let pr := ringPush cap ring pkt
      let s3 := if pr.2 then
          { a.2.2 with droppedOldest := a.2.2.droppedOldest + 1 } else a.2.2
      (pr.1, a.2.1, s3, .queued pr.2)
    else (ring, a.2.1, a.2.2, .rateLimited)

/-- UTF-8 bytes of the JSON text `{"a":1}`. -/
def payloadA : List Nat := [123, 34, 97, 34, 58, 49, 125]

/-- UTF-8 bytes of the JSON text `{"wall_ts":1}`. -/
def payloadWall : List Nat := [123, 34, 119, 97, 108, 108, 95, 116, 115, 34, 58, 49, 125]

/-- A concrete 32-byte MAC function for evaluating the model on explicit
inputs (the round-trip theorems hold for every such function). -/
def sampleMac : List Nat → List Nat → List Nat := fun _ _ => List.replicate 32 0

/-- Concrete listener environment for explicit evaluation: key id 1 loaded,
clock at 1000 ms, and a decoder that agrees with `json.loads` on `payloadA`
(`{"a":1}` decodes to the object `{a: 1}`). -/
def sampleEnv : Env where
  keys := fun k => if k = 1 then some [7] else none
  mac := sampleMac
  phash := fun _ => [9]
  jdec := fun bs => if bs = payloadA then some (.obj [("a", .num 1)]) else none
  parseIso := fun _ => none
  nowMs := 1000
  wallNow := 1
  staleWindowSec := 60

/-- Concrete listener environment whose clock stands at the epoch instant
1 700 000 000 s and whose decoder agrees with `json.loads` on `payloadWall`
(`{"wall_ts":1}` decodes to the object `{wall_ts: 1}`). -/
def wallEnv : Env where
  keys := fun k => if k = 1 then some [7] else none
  mac := sampleMac
  phash := fun _ => [9]
  jdec := fun bs => if bs = payloadWall then some (.obj [("wall_ts", .num 1)]) else none
  parseIso := fun _ => none
  nowMs := 1700000000000
  wallNow := 1700000000
  staleWindowSec := 60

/-- The concrete v3 packet the sender builds for `{"wall_ts":1}` at epoch
1 700 000 000 000 ms (src 5, sequence 0, key id 1). -/
def pktWall : List Nat :=
  (FastPath.buildPacketV3 sampleMac [7] 1700000000000 5 0 1 0 1 payloadWall).getD []

end Listener

namespace Gossip

/-- `QuorumMetrics.__post_init__` confidence (signal_types.py lines 40-48):
`min(1, witnesses/3) * min(1, mean/0.8)` when both witness count and mean are
positive, else 0. -/
def confidenceOf (witnessCount : Nat) (meanScore : ℚ) : ℚ :=
  if 0 < witnessCount ∧ 0 < meanScore then
    min 1 ((witnessCount : ℚ) / 3) * min 1 (meanScore / 0.8)
  else 0

/-- `QuorumMetrics` (signal_types.py lines 29-48); timestamps are Unix-epoch
seconds. -/
structure QuorumMetrics where
  witnessCount : Nat
  totalSamples : Nat
  meanScore : ℚ
  p95Score : ℚ
  windowStart : ℚ
  windowEnd : ℚ
  confidence : ℚ
deriving Repr, DecidableEq

/-- Constructor applying the `__post_init__` confidence computation. -/
def mkQuorumMetrics (wc ts : Nat) (mean p95 ws we : ℚ) : QuorumMetrics :=
  ⟨wc, ts, mean, p95, ws, we, confidenceOf wc mean⟩

/-- `LeaseSignal` (signal_types.py lines 9-27), the fields quorum computation
reads; `serverTs` is `server_ts.timestamp()` in epoch seconds. -/
structure LeaseSignal where
  node : String
  seq : Nat
  score : ℚ
  elevate : Bool
  serverTs : Option ℚ
  runId : Option String
deriving Repr, DecidableEq

/-- Insertion into an ascending-sorted list. -/
def insertSorted (x : ℚ) : List ℚ → List ℚ
  | [] => [x]
  | y :: t => if x ≤ y then x :: y :: t else y :: insertSorted x t

/-- `sorted(scores)`: ascending sort. -/
def sortScores (l : List ℚ) : List ℚ := l.foldr insertSorted []

/-- The p95 index used by the source, `int(0.95 * len(scores))`, computed exactly
as `19 * n / 20` (floor).  For every feasible window length (the signal list is
capped at 1000 entries) the double-precision product `0.95 * n` rounds to exactly
`19n/20` when that is an integer and stays within the same unit interval
otherwise, so the Python `int(...)` and this floor agree. -/
def p95Index (n : Nat) : Nat := 19 * n / 20

/-- The window filter of `compute_sliding_window_quorum` (gossip_v2.py lines
148-155): keep signals with a server timestamp within the last `windowS`
seconds whose run id matches (no run filter when `run_id` is `None`). -/
def windowFilter (windowS now : ℚ) (runId : Option String)
    (signals : List LeaseSignal) : List LeaseSignal :=
  signals.filter (fun s =>
    match s.serverTs with
    | none => false
    | some t =>
      decide (now - windowS ≤ t) &&
        (match runId with | none => true | some r => decide (s.runId = some r)))

/-- `DualPathWatcher.compute_sliding_window_quorum` (gossip_v2.py lines 141-171):
window-filter the signal list, then compute unique-witness count, mean, and the
`sorted(scores)[int(0.95*len)]` percentile; `none` when the window is empty. -/
def computeSlidingWindowQuorum (windowS : ℚ) (now : ℚ) (runId : Option String)
    (signals : List LeaseSignal) : Option QuorumMetrics :=
  let cutoff := now - windowS
  let windowSignals := windowFilter windowS now runId signals
  if windowSignals.isEmpty then none
  else
    let scores := windowSignals.map (·.score)
    let witnesses := (windowSignals.map (·.node)).dedup.length
    some (mkQuorumMetrics witnesses windowSignals.length
      (scores.sum / (scores.length : ℚ))
      ((sortScores scores).getD (p95Index scores.length) 0)
      cutoff now)

/-- Watcher thresholds (gossip_v2.py `__init__`, lines 30-61). -/
structure WatcherCfg where
  quorumThreshold : Nat
  nodeScoreThreshold : ℚ := 0.7
  fastPathScore : ℚ := 0.9
  elevationBackoff : ℚ := 2

/-- Mutable decision state of the watcher: `last_elevation` (perf-counter
seconds), the hysteresis counter and the per-run elevation latch. -/
structure WatcherState where
  lastElevation : ℚ := 0
  consecutive : Nat := 0
  elevated : Bool := false
deriving Repr, DecidableEq

/-- Reason codes produced by `should_elevate` (the formatted detail strings of
the source are reduced to their tags). -/
inductive Reason where
  | noMetrics
  | backoff
  | alreadyElevated
  | insufficientQuorum
  | fastPath
  | hysteresis
  | building
  | resetHysteresis
deriving Repr, DecidableEq

/-- `DualPathWatcher.should_elevate` (gossip_v2.py lines 173-214): backoff,
already-elevated latch, quorum threshold, fast path on p95, hysteresis on mean
needing two consecutive qualifying windows; returns the decision, the reason and
the mutated watcher state (`elevated`, `consecutive_elevations`). -/
def shouldElevate (cfg : WatcherCfg) (st : WatcherState) (now : ℚ)
    (m : Option QuorumMetrics) : Bool × Reason × WatcherState :=
  match m with
  | none => (false, .noMetrics, st)
  | some metrics =>
    if now - st.lastElevation < cfg.elevationBackoff then (false, .backoff, st)
    else if st.elevated then (false, .alreadyElevated, st)
    else if metrics.witnessCount < cfg.quorumThreshold then
      (false, .insufficientQuorum, st)
    else if cfg.quorumThreshold ≤ metrics.witnessCount ∧
        cfg.fastPathScore ≤ metrics.p95Score then
      (true, .fastPath, { st with elevated := true })
    else if cfg.quorumThreshold ≤ metrics.witnessCount ∧
        cfg.nodeScoreThreshold ≤ metrics.meanScore then
      if 2 ≤ st.consecutive + 1 then
        (true, .hysteresis, { st with consecutive := st.consecutive + 1, elevated := true })
      else (false, .building, { st with consecutive := st.consecutive + 1 })
    else (false, .resetHysteresis, { st with consecutive := 0 })

/-- A control-plane write: the source only ever calls
`create_namespaced_config_map` (create-only), never a patch. -/
inductive ApiAction where
  | createConfigMap (name : String) (labels : List (String × String))
      (dataKeys : List String) (elevationJson : List (String × Listener.J))
  | patchConfigMap (name : String)

/-- `DualPathWatcher.create_elevation_artifact_bg` (gossip_v2.py lines 264-301):
the lease-path elevation artifact.  Name `aswarm-elevated-<runid>` (truthy run
id) and a single `elevation.json` data field; note: no `confidence` key. -/
def createElevationArtifactBg (quorumThreshold : Nat) (windowMs : Nat)
    (m : QuorumMetrics) (runId : Option String) (decisionTsServer : String)
    (reason : String) : ApiAction :=
  let rid := (runId.getD "")
  let cmName := if rid ≠ "" then "aswarm-elevated-" ++ rid else "aswarm-elevated"
  .createConfigMap cmName
    [("type", "elevation"), ("aswarm.ai/component", "pheromone"),
     ("aswarm.ai/run-id", rid)]
    ["elevation.json"]
    [("run_id", match runId with | some r => .str r | none => .null),
     ("decision_ts_server", .str decisionTsServer),
     ("witness_count", .num m.witnessCount),
     ("mean_score", .num m.meanScore),
     ("p95_score", .num m.p95Score),
     ("threshold", .num quorumThreshold),
     ("window_ms", .num windowMs),
     ("reason", .str reason)]

/-- The elevation-event dict built by `DualPathWatcher.handle_fastpath_signal`
(gossip_v2.py lines 317-329). -/
def fastpathElevationEvent (decisionTs node : String) (score : ℚ)
    (witnessCount : ℚ) (selector eventType : String) (latencyMs : ℚ)
    (runId : String) : List (String × Listener.J) :=
  [("elevation", .bool true),
   ("decision_ts_server", .str decisionTs),
   ("source", .str "fastpath"),
   ("node", .str node),
   ("score", .num score),
   ("witness_count", .num witnessCount),
   ("selector", .str selector),
   ("event_type", .str eventType),
   ("latency_ms", .num latencyMs),
   ("run_id", .str runId)]

/-- `DualPathWatcher.create_fastpath_elevation_artifact` (gossip_v2.py lines
348-377): name `aswarm-elevated-fastpath-<runid>` (truthy run id), a `source`
label, and the fast-path event dict as `elevation.json`. -/
def createFastpathElevationArtifact (ev : List (String × Listener.J)) : ApiAction :=
  let rid := match List.lookup "run_id" ev with
    | some (.str r) => r
    | _ => ""
  let cmName := if rid ≠ "" then "aswarm-elevated-fastpath-" ++ rid
    else "aswarm-elevated-fastpath"
  .createConfigMap cmName
    [("type", "elevation"), ("aswarm.ai/component", "pheromone"),
     ("aswarm.ai/source", "fastpath"), ("aswarm.ai/run-id", rid)]
    ["elevation.json"] ev

/-- `strLeads n h` is true when `n` is an initial segment of `h`
(character-list helper for modelling Python's `in` on strings). -/
def strLeads : List Char → List Char → Bool
  | [], _ => true
  | _ :: _, [] => false
  | n :: ns, h :: hs => n == h && strLeads ns hs

/-- Python's `in` on strings, over character lists: `strHas n h` is true when
`n` occurs contiguously inside `h`. -/
def strHas (n : List Char) : List Char → Bool
  | [] => n.isEmpty
  | h :: hs => strLeads n (h :: hs) || strHas n hs

/-- The lease-path background writer's conflict handling (gossip_v2.py lines
297-301): `except Exception as e: if "409" in str(e): pass` — a substring test
on the text of ANY exception, not a status comparison; a non-409 error whose
message happens to contain `409` is also swallowed. -/
def bgConflictBenign (e : String) : Bool := strHas "409".data e.data

/-- The fast-path writer's conflict handling (gossip_v2.py lines 373-377):
`except ApiException as e: if e.status == 409: pass` — an exact status test,
and only for `ApiException`. -/
def fastpathConflictBenign (status : Nat) : Bool := status == 409

/-- The 1-based nearest rank `⌈0.95·n⌉`, computed in integers as
`(19·n + 19) / 20`. -/
def p95NearestRankIndex (n : Nat) : Nat := (19 * n + 19) / 20

/-- Modelled from the spec: the nearest-rank (no interpolation) 95th percentile,
the element of the ascending-sorted scores at 1-based rank `⌈0.95·n⌉`.  This is
the spec-side comparator the implementation is checked against. -/
def p95NearestRank (scores : List ℚ) : ℚ :=
  (sortScores scores).getD (p95NearestRankIndex scores.length - 1) 0

/-- Twenty in-window signals from twenty distinct nodes, nineteen scoring 0 and
one scoring 1, all timestamped at instant 100. -/
def sigs20 : List LeaseSignal :=
  (List.range 20).map (fun k =>
    ⟨"n" ++ toString k, 0, if k = 19 then 1 else 0, false, some 100, none⟩)

/-- Record name of a control-plane write. -/
def ApiAction.cmName : ApiAction → String
  | .createConfigMap n _ _ _ => n
  | .patchConfigMap n => n

/-- Keys of the `elevation.json` data field of a write. -/
def ApiAction.jsonKeys : ApiAction → List String
  | .createConfigMap _ _ _ j => j.map Prod.fst
  | .patchConfigMap _ => []

/-- Whether the write is a create (never a patch in this source). -/
def ApiAction.isCreate : ApiAction → Bool
  | .createConfigMap _ _ _ _ => true
  | .patchConfigMap _ => false

/-- Data-field names of a write. -/
def ApiAction.dataKeyNames : ApiAction → List String
  | .createConfigMap _ _ d _ => d
  | .patchConfigMap _ => []

end Gossip

namespace Telemetry

/-- The raw per-tick score (telemetry_v2.py lines 157-159):
`0.7*min(ports/10, 1) + 0.3*min(churn/8, 1)` with `ports = sketch.get("scan_ports", 0)`
and `churn = graph.get("new_procs", 0) + graph.get("network_procs", 0)`. -/
def rawScore (sketch graph : List (String × ℚ)) : ℚ :=
  let ports := (List.lookup "scan_ports" sketch).getD 0
  let churn := (List.lookup "new_procs" graph).getD 0 +
    (List.lookup "network_procs" graph).getD 0
  0.7 * min (ports / 10) 1 + 0.3 * min (churn / 8) 1

/-- `DualPathTelemetry.score_signal` (telemetry_v2.py lines 155-165): EWMA with
`alpha = 0.4` over the raw score, seeded from the previous published score. -/
def scoreSignal (sketch graph : List (String × ℚ)) (prev : ℚ) : ℚ :=
  0.4 * rawScore sketch graph + 0.6 * prev

/-- The published score sequence over a run of ticks, threading `self._ewma`
(initial value `0.0`, line 162's `getattr` default). -/
def scoreTraceAux (prev : ℚ) : List (List (String × ℚ) × List (String × ℚ)) → List ℚ
  | [] => []
  | (sk, gr) :: rest =>
    let s := scoreSignal sk gr prev
    s :: scoreTraceAux s rest

/-- Published scores of a tick sequence, starting from the default EWMA state. -/
def scoreTrace (ticks : List (List (String × ℚ) × List (String × ℚ))) : List ℚ :=
  scoreTraceAux 0 ticks

end Telemetry

namespace MicroAct

/-- Python parameter values as they occur in the `params` dict of
`MicroActCatalog.execute` (JSON-able scalars). -/
inductive PVal where
  | str (s : String)
  | int (n : Int)
  | num (q : ℚ)
  | bool (b : Bool)
  | pynone
deriving Repr, DecidableEq

/-- Exceptions the pre-dispatch validation can raise (they are NOT caught:
the `try` of `execute` starts only at the dispatch, line 252). -/
inductive PyErr where
  | typeError
  | attributeError
deriving Repr, DecidableEq

/-- A catalog entry (`MicroAct` dataclass, microact_catalog_v2.py lines 39-49). -/
structure MicroActDef where
  id : String
  ring : Nat
  name : String
  ttlSeconds : Int
  supportsProbe : Bool
  requiresParams : List String
  optionalParams : List String
deriving Repr, DecidableEq

/-- The fixed catalog registered by `_register_actions` (lines 101-175). -/
def catalogActions : List MicroActDef :=
  [⟨"log_anomaly", 1, "Log Anomaly", 0, false,
      ["asset_id", "anomaly_type", "score"], []⟩,
   ⟨"networkpolicy_isolate", 2, "Pod Network Isolation", 300, true,
      ["namespace", "selector"], ["ttl_seconds"]⟩,
   ⟨"egress_rate_limit", 2, "Egress Rate Limit", 300, true,
      ["host", "rate_mbps"], ["interface", "ttl_seconds"]⟩,
   ⟨"dns_sinkhole", 2, "DNS Sinkhole", 600, true,
      ["namespace", "selector"], ["sinkhole_ip", "ttl_seconds"]⟩,
   ⟨"process_freeze", 3, "Process Freeze", 120, true,
      ["host", "pid"], ["ttl_seconds"]⟩,
   ⟨"token_revoke", 3, "IdP Token Revoke", 3600, true,
      ["provider", "user_id"], ["scope", "ttl_seconds"]⟩,
   ⟨"container_pause", 3, "Container Pause", 180, true,
      ["namespace", "pod", "container"], ["ttl_seconds"]⟩]

/-- `MicroActCatalog.get_action`. -/
def getAction (actionId : String) : Option MicroActDef :=
  catalogActions.find? (fun a => a.id == actionId)

/-- The proof object of `_compute_proof` (lines 78-89). -/
structure ProofObj where
  actionId : String
  paramsHash : String
  controller : String
  dryRun : Bool
  timestamp : String
deriving Repr, DecidableEq

/-- `ActuationResult` dataclass (lines 51-60). -/
structure ActuationResult where
  success : Bool
  message : String
  revertHandle : Option String := none
  probeEndpoint : Option String := none
  appliedAt : Option String := none
  expiresAt : Option String := none
  proof : Option ProofObj := none
deriving Repr, DecidableEq

/-- Execution environment of the catalog: the `DRY_RUN`/`MAX_RING` process
flags, the external `subprocess.run` (`kubectl`), SHA-256 as hex, and the
clocks (`datetime.now().isoformat()`, `time.time()`, an ISO rendering of an
epoch instant for `expires_at`). -/
structure CatEnv where
  dryRun : Bool
  maxRing : Nat
  runCmd : List String → Bool × String
  sha256hex : String → String
  nowIso : String
  nowEpoch : ℚ
  isoFromEpoch : ℚ → String

/-- Python `params["rate_mbps"] <= 0` (line 222): numbers and bools compare,
anything else raises `TypeError` — uncaught, since this runs before the `try`. -/
def pyLeZero : PVal → Except PyErr Bool
  | .int n => .ok (n ≤ 0)
  | .num q => .ok (q ≤ 0)
  | .bool b => .ok (¬ b)
  | _ => .error .typeError

/-- Python `str.strip()`: drop whitespace from both ends (structural
implementation over the character list). -/
def pyStrip (s : String) : String :=
  ⟨((s.data.dropWhile Char.isWhitespace).reverse.dropWhile Char.isWhitespace).reverse⟩

/-- Python `not params["selector"].strip()` (line 228): only `str` has `.strip`;
anything else raises `AttributeError` — uncaught. -/
def pyStripEmpty : PVal → Except PyErr Bool
  | .str s => .ok (pyStrip s = "")
  | _ => .error .attributeError

/-- Whether the decimal literal accepted by Python `int(str)` parses. -/
def isIntLiteral (s : String) : Bool :=
  let t := (pyStrip s).data
  let t2 := match t with
    | c :: rest => if c = '-' ∨ c = '+' then rest else t
    | [] => t
  !t2.isEmpty && t2.all (·.isDigit)

/-- Whether `int(params["pid"])` succeeds (lines 234-241; its
`ValueError`/`TypeError` ARE caught there and yield a failure result). -/
def pyIntConvertible : PVal → Bool
  | .int _ => true
  | .num _ => true
  | .bool _ => true
  | .str s => isIntLiteral s
  | .pynone => false

/-- Numeric coercion used by the TTL arithmetic inside the dispatch `try`
(`time.monotonic() + ttl`, `ttl <= 0`): `none` stands for the `TypeError` the
`except` at line 272 turns into an `Execution failed` result. -/
def pyNum : PVal → Option ℚ
  | .int n => some (n : ℚ)
  | .num q => some q
  | .bool b => some (if b then 1 else 0)
  | _ => none

/-- Python `str()` of a parameter value, for messages and revert handles. -/
def pvalStr : PVal → String
  | .str s => s
  | .int n => toString n
  | .num q => toString q
  | .bool b => if b then "True" else "False"
  | .pynone => "None"

/-- Insertion sort of parameter bindings by key (model of
`json.dumps(..., sort_keys=True)` ordering). -/
def insertByKey (x : String × PVal) : List (String × PVal) → List (String × PVal)
  | [] => [x]
  | y :: t => if x.1 ≤ y.1 then x :: y :: t else y :: insertByKey x t

/-- Canonical serialization of the parameter map (sorted keys), hashed by
`_compute_proof`; value rendering is schematic but injective per value. -/
def dumpsSorted (params : List (String × PVal)) : String :=
  String.intercalate ","
    ((params.foldr insertByKey []).map (fun kv => kv.1 ++ ":" ++ pvalStr kv.2))

/-- `_compute_proof` (lines 78-89): truncated SHA-256 over
`"<action_id>:<canonical params>"`. -/
def computeProof (env : CatEnv) (actionId : String)
    (params : List (String × PVal)) : ProofObj :=
  { actionId := actionId,
    paramsHash := (env.sha256hex (actionId ++ ":" ++ dumpsSorted params)).take 16,
    controller := "microact-v2",
    dryRun := env.dryRun,
    timestamp := env.nowIso }

/-- `_run` (lines 62-76): in `DRY_RUN` no command executes and the call
succeeds with `"[dry-run]"`; otherwise the external command's outcome. -/
def runCmdModel (env : CatEnv) (cmd : List String) : Bool × String :=
  if env.dryRun then (true, "[dry-run]") else env.runCmd cmd

/-- A successful primitive application, shared shape of the `_execute_*`
success branches: handle, probe endpoint, `applied_at`/`expires_at`, proof.
`ttlq` is the numeric TTL (the schedule call would have raised otherwise). -/
def successResult (env : CatEnv) (message handle probe : String) (ttlq : ℚ)
    (proof : ProofObj) : ActuationResult :=
  { success := true, message := message, revertHandle := some handle,
    probeEndpoint := some probe, appliedAt := some env.nowIso,
    expiresAt := some (env.isoFromEpoch (env.nowEpoch + ttlq)),
    proof := some proof }

/-- The failure result produced when an exception escapes a dispatch branch and
is caught by the `except` at line 272. -/
def executionFailed : ActuationResult :=
  { success := false, message := "Execution failed: TypeError" }

/-- The `_execute_*` dispatch (lines 252-271), with each branch from its source
(lines 279-547).  In `DRY_RUN` the reversible branches succeed and schedule a
TTL revert (whose `ttl <= 0` comparison raises on a non-numeric TTL, caught into
`executionFailed`); outside `DRY_RUN` every branch but `networkpolicy_isolate`
and `log_anomaly` reports "requires node agent / integration" as a failure
value, and `networkpolicy_isolate` applies `kubectl` (temp-file path elided). -/
def dispatch (env : CatEnv) (actionId : String) (params : List (String × PVal))
    (ttl : PVal) (proof : ProofObj) : ActuationResult :=
  let p := fun k => (List.lookup k params).getD .pynone
  if actionId == "networkpolicy_isolate" then
    let ns := pvalStr (p "namespace")
    let policyName := "aswarm-isolate-" ++ toString env.nowEpoch.floor
    let r := runCmdModel env ["kubectl", "apply", "-f", "<policy-file>"]
    if r.1 then
      match pyNum ttl with
      | none => executionFailed
      | some ttlq =>
        successResult env
          ("Applied network isolation to " ++ pvalStr (p "selector") ++ " in " ++ ns)
          (ns ++ "/" ++ policyName)
          ("http://probe." ++ ns ++ ".svc:8080/network") ttlq proof
    else { success := false, message := "Failed to apply NetworkPolicy: " ++ r.2 }
  else if actionId == "egress_rate_limit" then
    if env.dryRun then
      match pyNum ttl with
      | none => executionFailed
      | some ttlq =>
        let host := pvalStr (p "host")
        let interface := pvalStr ((List.lookup "interface" params).getD (.str "eth0"))
        successResult env
          ("[DRY_RUN] Would apply " ++ pvalStr (p "rate_mbps") ++ "Mbps egress limit")
          (host ++ "/" ++ interface ++ "/" ++ pvalStr (p "rate_mbps"))
          ("http://" ++ host ++ ":9100/metrics") ttlq proof
    else { success := false,
           message := "Egress rate limiting requires node agent (not implemented)" }
  else if actionId == "token_revoke" then
    if env.dryRun then
      match pyNum ttl with
      | none => executionFailed
      | some ttlq =>
        let provider := pvalStr (p "provider")
        let userId := pvalStr (p "user_id")
        let scope := pvalStr ((List.lookup "scope" params).getD (.str "all"))
        successResult env ("[DRY_RUN] Would revoke tokens for " ++ userId)
          (provider ++ "/" ++ userId ++ "/" ++ scope)
          ("https://" ++ provider ++ "/api/v1/users/" ++ userId ++ "/status") ttlq proof
    else { success := false,
           message := "Token revocation requires IdP integration (not implemented)" }
  else if actionId == "log_anomaly" then
    match pyNum (p "score") with
    | none => executionFailed
    | some _ =>
      { success := true, message := "Logged anomaly for " ++ pvalStr (p "asset_id"),
        appliedAt := some env.nowIso, proof := some proof }
  else if actionId == "dns_sinkhole" then
    if env.dryRun then
      match pyNum ttl with
      | none => executionFailed
      | some ttlq =>
        let ns := pvalStr (p "namespace")
        let sinkholeIp := pvalStr ((List.lookup "sinkhole_ip" params).getD (.str "10.0.0.254"))
        successResult env "[DRY_RUN] Would apply DNS sinkhole"
          (ns ++ "/" ++ pvalStr (p "selector") ++ "/" ++ sinkholeIp)
          ("http://dns-probe." ++ ns ++ ".svc:8053/metrics") ttlq proof
    else { success := false,
           message := "DNS sinkhole requires CoreDNS integration (not implemented)" }
  else if actionId == "process_freeze" then
    if env.dryRun then
      match pyNum ttl with
      | none => executionFailed
      | some ttlq =>
        let host := pvalStr (p "host")
        successResult env ("[DRY_RUN] Would freeze process " ++ pvalStr (p "pid"))
          (host ++ "/" ++ pvalStr (p "pid"))
          ("http://" ++ host ++ ":9100/metrics") ttlq proof
    else { success := false,
           message := "Process freeze requires node agent (not implemented)" }
  else if actionId == "container_pause" then
    if env.dryRun then
      match pyNum ttl with
      | none => executionFailed
      | some ttlq =>
        let ns := pvalStr (p "namespace")
        let pod := pvalStr (p "pod")
        let container := pvalStr (p "container")
        successResult env ("[DRY_RUN] Would pause container " ++ container)
          (ns ++ "/" ++ pod ++ "/" ++ container)
          ("http://probe." ++ ns ++ ".svc:8080/container/" ++ container) ttlq proof
    else { success := false,
           message := "Container pause requires node agent (not implemented)" }
  else { success := false, message := "Action " ++ actionId ++ " not implemented" }

/-- `MicroActCatalog.execute` (lines 193-277): unknown action, ring ceiling,
required-parameter and value validation, then the dispatched primitive.  The
value validations run before the `try`, so their `TypeError`/`AttributeError`
propagate to the caller (`Except.error`); everything after is a result value. -/
def execute (env : CatEnv) (actionId : String)
    (params : List (String × PVal)) : Except PyErr ActuationResult := do
  match getAction actionId with
  | none => return { success := false, message := "Unknown action: " ++ actionId }
  | some action =>
    if env.maxRing < action.ring then
      return { success := false,
               message := "Action " ++ actionId ++ " (Ring " ++ toString action.ring ++
                 ") exceeds MAX_RING=" ++ toString env.maxRing }
    else
      let missing := action.requiresParams.filter
        (fun r => (List.lookup r params).isNone)
      if ¬ missing.isEmpty then
        return { success := false,
                 message := "Missing required parameters: " ++ String.intercalate ", " missing }
      else
        let rateBad ← match List.lookup "rate_mbps" params with
          | some v => pyLeZero v
          | none => pure false
        if rateBad then
          return { success := false, message := "Invalid rate_mbps: must be positive" }
        else
          let selBad ← match List.lookup "selector" params with
            | some v => pyStripEmpty v
            | none => pure false
          if selBad then
            return { success := false, message := "Invalid selector: cannot be empty" }
          else
            let pidBad : Bool := match List.lookup "pid" params with
              | some v => ! pyIntConvertible v
              | none => false
            if pidBad then
              return { success := false, message := "Invalid pid: must be integer" }
            else
              let ttl := (List.lookup "ttl_seconds" params).getD (PVal.int action.ttlSeconds)
              return dispatch env actionId params ttl (computeProof env actionId params)

/-- One entry of the in-memory TTL table `active_ttls` (lines 564-570). -/
structure TtlEntry where
  actionId : String
  expireMono : ℚ
  appliedMono : ℚ
  appliedAt : String
deriving Repr, DecidableEq

/-- `_schedule_ttl_revert` (lines 558-572): a non-positive TTL schedules
nothing; otherwise the handle maps to its deadline `monotonic() + ttl`. -/
def scheduleTtlRevert (actionId handle : String) (ttl : ℚ) (monoNow : ℚ)
    (appliedAtIso : String) (tbl : List (String × TtlEntry)) :
    List (String × TtlEntry) :=
  if ttl ≤ 0 then tbl
  else setAssoc handle ⟨actionId, monoNow + ttl, monoNow, appliedAtIso⟩ tbl

/-- One pass of the TTL monitor loop (lines 576-593): pop every entry whose
deadline has passed (`now >= expire_mono`), then run the reverts.  The revert
outcome is not consulted: the handles are removed first, unconditionally. -/
def monitorTick (monoNow : ℚ) (tbl : List (String × TtlEntry)) :
    List (String × TtlEntry) × List (String × TtlEntry) :=
  (tbl.filter (fun e => ¬ (e.2.expireMono ≤ monoNow)),
   tbl.filter (fun e => e.2.expireMono ≤ monoNow))

/-- The table after a sequence of monitor wake-ups at the given instants. -/
def runTicks (ticks : List ℚ) (tbl : List (String × TtlEntry)) :
    List (String × TtlEntry) :=
  ticks.foldl (fun t now => (monitorTick now t).1) tbl

/-- Whether Python would compare this value against a number without raising. -/
def isNumericPV : PVal → Bool
  | .int _ => true
  | .num _ => true
  | .bool _ => true
  | _ => false

/-- Whether the value is a Python `str`. -/
def isStrPV : PVal → Bool
  | .str _ => true
  | _ => false

/-- Concrete catalog environment for explicit evaluation: `DRY_RUN` on, the
default `MAX_RING = 3`, epoch clock at 0. -/
def sampleCatEnv : CatEnv where
  dryRun := true
  maxRing := 3
  runCmd := fun _ => (true, "")
  sha256hex := fun _ => "0123456789abcdef0123"
  nowIso := "2025-01-01T00:00:00+00:00"
  nowEpoch := 0
  isoFromEpoch := fun _ => "2025-01-01T00:05:00+00:00"

end MicroAct

end ASwarm

/-! ## Theorems -/


namespace ASwarm

theorem beBytes_length (k n : Nat) : (beBytes k n).length = k := by
  induction k generalizing n with
  | zero => rfl
  | succ k ih => simp [beBytes, ih]

theorem beVal_append_singleton (bs : List Nat) (b : Nat) :
    beVal (bs ++ [b]) = beVal bs * 256 + b := by
  simp [beVal, List.foldl_append]

theorem beVal_beBytes (k n : Nat) : beVal (beBytes k n) = n % 256 ^ k := by
  induction k generalizing n with
  | zero => simp [beBytes, beVal, Nat.mod_one]
  | succ k ih =>
    rw [beBytes, beVal_append_singleton, ih]
    have hm : n % (256 * 256 ^ k) = n % 256 + 256 * (n / 256 % 256 ^ k) := Nat.mod_mul
    rw [pow_succ, mul_comm (256 ^ k) 256, hm]
    ring

theorem beVal_beBytes_of_lt {k n : Nat} (h : n < 256 ^ k) : beVal (beBytes k n) = n := by
  rw [beVal_beBytes]; exact Nat.mod_eq_of_lt h

theorem beBytes_lt (k n : Nat) : ∀ b ∈ beBytes k n, b < 256 := by
  induction k generalizing n with
  | zero => simp [beBytes]
  | succ k ih =>
    intro b hb
    rw [beBytes] at hb
    rcases List.mem_append.1 hb with h | h
    · exact ih _ _ h
    · simp at h; omega

/-- Extract a segment: dropping a length-`o` prefix and taking the next `m` bytes
recovers the middle list. -/
theorem seg_at (p s t : List Nat) (o m : Nat) (ho : p.length = o) (hm : s.length = m) :
    ((p ++ (s ++ t)).drop o).take m = s := by
  subst ho; subst hm; rw [List.drop_left, List.take_left]

namespace FastPath

theorem v3HeaderBytes_length (ts src seq non plen kid : Nat) :
    (v3HeaderBytes ts src seq non plen kid).length = 27 := by
  simp [v3HeaderBytes, MAGIC, beBytes_length]

end FastPath

namespace Listener

theorem beVal_seg (p t : List Nat) (k n o : Nat) (ho : p.length = o) (hn : n < 256 ^ k) :
    beVal (((p ++ (beBytes k n ++ t)).drop o).take k) = n := by
  rw [seg_at p _ t o k ho (beBytes_length k n), beVal_beBytes_of_lt hn]

/-- Unpacking a packed v3 header (with anything appended after it) recovers every
field the sender wrote. -/
theorem unpack_v3HeaderBytes (ts src seq non plen kid : Nat) (rest : List Nat)
    (hts : ts < 2 ^ 64) (hsrc : src < 2 ^ 32) (hseq : seq < 2 ^ 16)
    (hnon : non < 2 ^ 32) (hplen : plen < 2 ^ 16) (hkid : kid < 2 ^ 8) :
    unpackV3Header (FastPath.v3HeaderBytes ts src seq non plen kid ++ rest) =
      ⟨FastPath.MAGIC, 3, 1, ts, src, seq, non, plen, kid⟩ := by
  have h8 : (256 : Nat) ^ 8 = 2 ^ 64 := by norm_num
  have h4 : (256 : Nat) ^ 4 = 2 ^ 32 := by norm_num
  have h2 : (256 : Nat) ^ 2 = 2 ^ 16 := by norm_num
  have h1 : (256 : Nat) ^ 1 = 2 ^ 8 := by norm_num
  set B := FastPath.v3HeaderBytes ts src seq non plen kid ++ rest with hB
  have hmagic : B.take 4 = FastPath.MAGIC := by
    have he : B = FastPath.MAGIC ++ (beBytes 1 3 ++ beBytes 1 1 ++ beBytes 8 ts ++
        beBytes 4 src ++ beBytes 2 seq ++ beBytes 4 non ++ beBytes 2 plen ++
        beBytes 1 kid ++ rest) := by
      simp [hB, FastPath.v3HeaderBytes, List.append_assoc]
    rw [he, show (4 : Nat) = FastPath.MAGIC.length from rfl, List.take_append_eq_append_take,
      List.take_length, Nat.sub_self, List.take_zero, List.append_nil]
  have hver : beVal ((B.drop 4).take 1) = 3 := by
    have he : B = FastPath.MAGIC ++ (beBytes 1 3 ++ (beBytes 1 1 ++ beBytes 8 ts ++
        beBytes 4 src ++ beBytes 2 seq ++ beBytes 4 non ++ beBytes 2 plen ++
        beBytes 1 kid ++ rest)) := by
      simp [hB, FastPath.v3HeaderBytes, List.append_assoc]
    rw [he]; exact beVal_seg _ _ 1 3 4 rfl (by omega)
  have htype : beVal ((B.drop 5).take 1) = 1 := by
    have he : B = (FastPath.MAGIC ++ beBytes 1 3) ++ (beBytes 1 1 ++ (beBytes 8 ts ++
        beBytes 4 src ++ beBytes 2 seq ++ beBytes 4 non ++ beBytes 2 plen ++
        beBytes 1 kid ++ rest)) := by
      simp [hB, FastPath.v3HeaderBytes, List.append_assoc]
    rw [he]
    exact beVal_seg _ _ 1 1 5 (by simp [FastPath.MAGIC, beBytes_length]) (by omega)
  have hts2 : beVal ((B.drop 6).take 8) = ts := by
    have he : B = (FastPath.MAGIC ++ beBytes 1 3 ++ beBytes 1 1) ++ (beBytes 8 ts ++
        (beBytes 4 src ++ beBytes 2 seq ++ beBytes 4 non ++ beBytes 2 plen ++
        beBytes 1 kid ++ rest)) := by
      simp [hB, FastPath.v3HeaderBytes, List.append_assoc]
    rw [he]
    exact beVal_seg _ _ 8 ts 6 (by simp [FastPath.MAGIC, beBytes_length]) (h8 ▸ hts)
  have hsrc2 : beVal ((B.drop 14).take 4) = src := by
    have he : B = (FastPath.MAGIC ++ beBytes 1 3 ++ beBytes 1 1 ++ beBytes 8 ts) ++
        (beBytes 4 src ++ (beBytes 2 seq ++ beBytes 4 non ++ beBytes 2 plen ++
        beBytes 1 kid ++ rest)) := by
      simp [hB, FastPath.v3HeaderBytes, List.append_assoc]
    rw [he]
    exact beVal_seg _ _ 4 src 14 (by simp [FastPath.MAGIC, beBytes_length]) (h4 ▸ hsrc)
  have hseq2 : beVal ((B.drop 18).take 2) = seq := by
    have he : B = (FastPath.MAGIC ++ beBytes 1 3 ++ beBytes 1 1 ++ beBytes 8 ts ++
        beBytes 4 src) ++ (beBytes 2 seq ++ (beBytes 4 non ++ beBytes 2 plen ++
        beBytes 1 kid ++ rest)) := by
      simp [hB, FastPath.v3HeaderBytes, List.append_assoc]
    rw [he]
    exact beVal_seg _ _ 2 seq 18 (by simp [FastPath.MAGIC, beBytes_length]) (h2 ▸ hseq)
  have hnon2 : beVal ((B.drop 20).take 4) = non := by
    have he : B = (FastPath.MAGIC ++ beBytes 1 3 ++ beBytes 1 1 ++ beBytes 8 ts ++
        beBytes 4 src ++ beBytes 2 seq) ++ (beBytes 4 non ++ (beBytes 2 plen ++
        beBytes 1 kid ++ rest)) := by
      simp [hB, FastPath.v3HeaderBytes, List.append_assoc]
    rw [he]
    exact beVal_seg _ _ 4 non 20 (by simp [FastPath.MAGIC, beBytes_length]) (h4 ▸ hnon)
  have hplen2 : beVal ((B.drop 24).take 2) = plen := by
    have he : B = (FastPath.MAGIC ++ beBytes 1 3 ++ beBytes 1 1 ++ beBytes 8 ts ++
        beBytes 4 src ++ beBytes 2 seq ++ beBytes 4 non) ++ (beBytes 2 plen ++
        (beBytes 1 kid ++ rest)) := by
      simp [hB, FastPath.v3HeaderBytes, List.append_assoc]
    rw [he]
    exact beVal_seg _ _ 2 plen 24 (by simp [FastPath.MAGIC, beBytes_length]) (h2 ▸ hplen)
  have hkid2 : beVal ((B.drop 26).take 1) = kid := by
    have he : B = (FastPath.MAGIC ++ beBytes 1 3 ++ beBytes 1 1 ++ beBytes 8 ts ++
        beBytes 4 src ++ beBytes 2 seq ++ beBytes 4 non ++ beBytes 2 plen) ++
        (beBytes 1 kid ++ rest) := by
      simp [hB, FastPath.v3HeaderBytes, List.append_assoc]
    rw [he]
    exact beVal_seg _ _ 1 kid 26 (by simp [FastPath.MAGIC, beBytes_length]) (h1 ▸ hkid)
  simp [unpackV3Header, hmagic, hver, htype, hts2, hsrc2, hseq2, hnon2, hplen2, hkid2]

theorem seg_drop2 (p s t : List Nat) (o : Nat) (ho : p.length + s.length = o) :
    (p ++ (s ++ t)).drop o = t := by
  subst ho; rw [← List.append_assoc, ← List.length_append, List.drop_left]

theorem seg_take2 (p s t : List Nat) (o : Nat) (ho : p.length + s.length = o) :
    (p ++ (s ++ t)).take o = p ++ s := by
  subst ho; rw [← List.append_assoc, ← List.length_append, List.take_left]

theorem lookup_setAssoc_self [DecidableEq κ] [BEq κ] [LawfulBEq κ] (k : κ) (v : α)
    (l : List (κ × α)) : (setAssoc k v l).lookup k = some v := by
  induction l with
  | nil => simp [setAssoc, List.lookup]
  | cons h t ih =>
    obtain ⟨k2, v2⟩ := h
    by_cases hk : k2 = k
    · simp [setAssoc, hk, List.lookup]
    · have hbe : (k == k2) = false := by
        simp only [beq_eq_false_iff_ne]; exact fun he => hk he.symm
      simp [setAssoc, hk, List.lookup, hbe, ih]

/-- The accepted fresh-source replay entry: `seqCheck` on an unseen source. -/
theorem seqCheck_fresh (seq16 : Nat) :
    seqCheck seq16 (0, []) = (true, (seq16, [seq16])) := by
  have h1 : ¬ ((seq16 : Int) ≤ (0 : Nat) - 256) := by omega
  have h2 : (if seq16 > 0 then seq16 else 0) = seq16 := by split <;> omega
  simp [seqCheck, h1, h2]
  all_goals omega

/-- A sequence in the seen-set is rejected as a replay without touching the entry. -/
theorem seqCheck_seen (seq16 : Nat) (e : Nat × List Nat) (h : seq16 ∈ e.2) :
    seqCheck seq16 e = (false, e) := by
  unfold seqCheck
  split
  · rfl
  · simp [h]

/-- Round-trip delivery: a v3 packet built by the sender, processed by a receiver
holding the same key under `key_id`, inside the 5 s age window, with a fresh
per-source replay entry, an unseen packet hash, and an object JSON payload that
passes the secondary `wall_ts` check, is counted `valid` and handed to the
elevation callback with the header's metadata attached. -/
theorem processPacket_delivers (env : Env) (st : LState) (stats : Stats)
    (key payload data : List Nat) (kvs : List (String × J))
    (ts src seq16 seqC rand kid : Nat) (addr : String × Nat)
    (hbuild : FastPath.buildPacketV3 env.mac key ts src seq16 seqC rand kid payload = some data)
    (hkey : env.keys kid = some key)
    (hmac32 : ∀ d, (env.mac key d).length = 32)
    (hplen : payload.length ≤ MAX_PAYLOAD)
    (hage : (env.nowMs - (ts : Int)).natAbs ≤ 5000)
    (hfresh : st.srcSequences.lookup src = none)
    (hhash : env.phash data ∉ st.replayCache)
    (hjson : env.jdec payload = some (.obj kvs))
    (hwall : wallStale env kvs = false) :
    processPacket env st stats data addr =
      (⟨setAssoc src (seq16, [seq16]) st.srcSequences,
        st.replayCache ++ [env.phash data]⟩,
       { stats with valid := stats.valid + 1 },
       .delivered (.obj kvs)
         { sourceIp := addr.1, sourcePort := addr.2, srcId := src, seq16 := seq16,
           nonce32 := FastPath.nonce32 rand seq16 (seqC - 1), keyId := kid,
           tsUnixMs := ts, ageMs := (env.nowMs - (ts : Int)).natAbs }) := by
  simp only [FastPath.buildPacketV3] at hbuild
  cases hp : FastPath.packV3Header ts src seq16 (FastPath.nonce32 rand seq16 (seqC - 1))
      payload.length kid with
  | none => rw [hp] at hbuild; cases hbuild
  | some hdr0 =>
  rw [hp] at hbuild
  have hdata : data = hdr0 ++ payload ++ env.mac key (hdr0 ++ payload) := by
    injection hbuild with h; exact h.symm
  have hr : ts < 2 ^ 64 ∧ src < 2 ^ 32 ∧ seq16 < 2 ^ 16 ∧
      FastPath.nonce32 rand seq16 (seqC - 1) < 2 ^ 32 ∧
      payload.length < 2 ^ 16 ∧ kid < 2 ^ 8 := by
    by_contra hc
    simp only [FastPath.packV3Header, if_neg hc] at hp
    exact Option.noConfusion hp
  obtain ⟨hts, hsrc, hseq, hnonr, hpl2, hkid⟩ := hr
  have hall : ts < 2 ^ 64 ∧ src < 2 ^ 32 ∧ seq16 < 2 ^ 16 ∧
      FastPath.nonce32 rand seq16 (seqC - 1) < 2 ^ 32 ∧
      payload.length < 2 ^ 16 ∧ kid < 2 ^ 8 := ⟨hts, hsrc, hseq, hnonr, hpl2, hkid⟩
  have hhdr : hdr0 = FastPath.v3HeaderBytes ts src seq16
      (FastPath.nonce32 rand seq16 (seqC - 1)) payload.length kid := by
    rw [FastPath.packV3Header, if_pos hall] at hp
    injection hp with h; exact h.symm
  subst hhdr
  subst hdata
  set HB := FastPath.v3HeaderBytes ts src seq16
      (FastPath.nonce32 rand seq16 (seqC - 1)) payload.length kid with hHB
  set tag := env.mac key (HB ++ payload) with htagdef
  have hdl : HB.length = 27 := FastPath.v3HeaderBytes_length _ _ _ _ _ _
  have htl : tag.length = 32 := hmac32 _
  have hassoc : HB ++ payload ++ tag = HB ++ (payload ++ tag) := by
    simp [List.append_assoc]
  have hdlen : (HB ++ payload ++ tag).length = 27 + payload.length + 32 := by
    simp [hdl, htl]; omega
  have hunp : unpackV3Header (HB ++ payload ++ tag) =
      ⟨FastPath.MAGIC, 3, 1, ts, src, seq16,
        FastPath.nonce32 rand seq16 (seqC - 1), payload.length, kid⟩ := by
    rw [hassoc, hHB]
    exact unpack_v3HeaderBytes ts src seq16 _ payload.length kid (payload ++ tag)
      hts hsrc hseq hnonr hpl2 hkid
  have hc1 : ¬ ((HB ++ payload ++ tag).length < 27 + 32) := by rw [hdlen]; omega
  have hc4 : ¬ (payload.length > MAX_PAYLOAD) := by omega
  have hc5 : (HB ++ payload ++ tag).length = 27 + payload.length + 32 := hdlen
  have hc7 : ¬ ((env.nowMs - (ts : Int)).natAbs > 5000) := by omega
  have hdrop : (HB ++ payload ++ tag).drop (27 + payload.length) = tag := by
    rw [hassoc]; exact seg_drop2 _ _ _ _ (by rw [hdl])
  have htake : (HB ++ payload ++ tag).take (27 + payload.length) = HB ++ payload := by
    rw [hassoc]; exact seg_take2 _ _ _ _ (by rw [hdl])
  have hpay : ((HB ++ payload ++ tag).drop 27).take payload.length = payload := by
    rw [hassoc]; exact seg_at HB payload tag 27 payload.length hdl rfl
  have hc5b : HB.length + (payload.length + tag.length) = 27 + payload.length + 32 := by
    rw [hdl, htl]; ring
  have hhash2 : env.phash (HB ++ (payload ++ tag)) ∉ st.replayCache := by
    rw [← List.append_assoc]; exact hhash
  simp only [processPacket, hunp, hc1, if_neg, if_false, hkey, hdrop, htake, hpay]
  simp [hc1, hc4, hc5, hc7, hkey, hfresh, seqCheck_fresh, hhash, hjson, hwall,
    hdrop, htake, hpay, FastPath.MAGIC, hc5b, hhash2]

/-- Re-processing the same built packet once its sequence is in the source's
seen-set is rejected by the per-source replay check: `replays` increments, the
shared state is untouched, and the callback is not invoked. -/
theorem processPacket_replays (env : Env) (st : LState) (stats : Stats)
    (key payload data : List Nat)
    (ts src seq16 seqC rand kid : Nat) (addr : String × Nat)
    (hbuild : FastPath.buildPacketV3 env.mac key ts src seq16 seqC rand kid payload = some data)
    (hkey : env.keys kid = some key)
    (hmac32 : ∀ d, (env.mac key d).length = 32)
    (hplen : payload.length ≤ MAX_PAYLOAD)
    (hage : (env.nowMs - (ts : Int)).natAbs ≤ 5000)
    (hentry : st.srcSequences.lookup src = some (seq16, [seq16])) :
    processPacket env st stats data addr =
      (st, { stats with replays := stats.replays + 1 }, .replaySeq) := by
  simp only [FastPath.buildPacketV3] at hbuild
  cases hp : FastPath.packV3Header ts src seq16 (FastPath.nonce32 rand seq16 (seqC - 1))
      payload.length kid with
  | none => rw [hp] at hbuild; cases hbuild
  | some hdr0 =>
  rw [hp] at hbuild
  have hdata : data = hdr0 ++ payload ++ env.mac key (hdr0 ++ payload) := by
    injection hbuild with h; exact h.symm
  have hr : ts < 2 ^ 64 ∧ src < 2 ^ 32 ∧ seq16 < 2 ^ 16 ∧
      FastPath.nonce32 rand seq16 (seqC - 1) < 2 ^ 32 ∧
      payload.length < 2 ^ 16 ∧ kid < 2 ^ 8 := by
    by_contra hc
    simp only [FastPath.packV3Header, if_neg hc] at hp
    exact Option.noConfusion hp
  obtain ⟨hts, hsrc, hseq, hnonr, hpl2, hkid⟩ := hr
  have hall : ts < 2 ^ 64 ∧ src < 2 ^ 32 ∧ seq16 < 2 ^ 16 ∧
      FastPath.nonce32 rand seq16 (seqC - 1) < 2 ^ 32 ∧
      payload.length < 2 ^ 16 ∧ kid < 2 ^ 8 := ⟨hts, hsrc, hseq, hnonr, hpl2, hkid⟩
  have hhdr : hdr0 = FastPath.v3HeaderBytes ts src seq16
      (FastPath.nonce32 rand seq16 (seqC - 1)) payload.length kid := by
    rw [FastPath.packV3Header, if_pos hall] at hp
    injection hp with h; exact h.symm
  subst hhdr
  subst hdata
  set HB := FastPath.v3HeaderBytes ts src seq16
      (FastPath.nonce32 rand seq16 (seqC - 1)) payload.length kid with hHB
  set tag := env.mac key (HB ++ payload) with htagdef
  have hdl : HB.length = 27 := FastPath.v3HeaderBytes_length _ _ _ _ _ _
  have htl : tag.length = 32 := hmac32 _
  have hassoc : HB ++ payload ++ tag = HB ++ (payload ++ tag) := by
    simp [List.append_assoc]
  have hdlen : (HB ++ payload ++ tag).length = 27 + payload.length + 32 := by
    simp [hdl, htl]; omega
  have hunp : unpackV3Header (HB ++ payload ++ tag) =
      ⟨FastPath.MAGIC, 3, 1, ts, src, seq16,
        FastPath.nonce32 rand seq16 (seqC - 1), payload.length, kid⟩ := by
    rw [hassoc, hHB]
    exact unpack_v3HeaderBytes ts src seq16 _ payload.length kid (payload ++ tag)
      hts hsrc hseq hnonr hpl2 hkid
  have hc1 : ¬ ((HB ++ payload ++ tag).length < 27 + 32) := by rw [hdlen]; omega
  have hc4 : ¬ (payload.length > MAX_PAYLOAD) := by omega
  have hc7 : ¬ ((env.nowMs - (ts : Int)).natAbs > 5000) := by omega
  have hdrop : (HB ++ payload ++ tag).drop (27 + payload.length) = tag := by
    rw [hassoc]; exact seg_drop2 _ _ _ _ (by rw [hdl])
  have htake : (HB ++ payload ++ tag).take (27 + payload.length) = HB ++ payload := by
    rw [hassoc]; exact seg_take2 _ _ _ _ (by rw [hdl])
  have hc5b : HB.length + (payload.length + tag.length) = 27 + payload.length + 32 := by
    rw [hdl, htl]; ring
  have hchk : seqCheck seq16 (seq16, [seq16]) = (false, (seq16, [seq16])) :=
    seqCheck_seen seq16 (seq16, [seq16]) (by simp)
  simp only [processPacket, hunp, hkey, hdrop, htake]
  simp [hc1, hc4, hc7, hkey, hentry, hchk, hdrop, htake, FastPath.MAGIC, hc5b]

/-- `_allow_ip` either admits the packet leaving the counters alone or refuses
it incrementing exactly `rate_limited`. -/
theorem allowIp_split (now : ℚ) (ip : String) (buckets : List (String × (ℚ × ℚ)))
    (s0 : Stats) :
    (∃ bk, allowIp now ip buckets s0 = (true, bk, s0)) ∨
    (∃ bk, allowIp now ip buckets s0 =
      (false, bk, { s0 with rateLimited := s0.rateLimited + 1 })) := by
  rw [allowIp]
  split
  · right; exact ⟨_, rfl⟩
  · left; exact ⟨_, rfl⟩

/-- C3 counterexample: a 1-byte datagram reaching `_process_packet` returns at
the `len(data) < header+HMAC` check without touching any counter, and a
datagram filtered by the CIDR allow-list in `_receive_loop` increments
`received` but no terminal counter — packets are discarded with no terminal
counter incremented, refuting "exactly one". -/
theorem C3_counterexample :
    processPacket sampleEnv ⟨[], []⟩ {} [0] ("10.0.0.1", 9999) =
      (⟨[], []⟩, {}, .dropShort) ∧
    terminalTotal (processPacket sampleEnv ⟨[], []⟩ {} [0] ("10.0.0.1", 9999)).2.1 =
      terminalTotal {} ∧
    (receiveStep 16 false 0 "10.0.0.1" [0] [] [] {}).2.2 =
      ({ received := 1 }, .filtered) ∧
    terminalTotal (receiveStep 16 false 0 "10.0.0.1" [0] [] [] {}).2.2.1 =
      terminalTotal {} :=
  ⟨rfl, rfl, rfl, rfl⟩

/-- C3 (amended): every datagram increments AT MOST one terminal counter —
`_process_packet` leaves `received` untouched and either increments exactly one
terminal counter or increments none, the latter exactly on the silent returns
(short datagram, oversize payload length, size mismatch) and on the non-object
JSON path whose `payload_data.get` raises into the worker loop; `_receive_loop`
always increments `received` and adds at most one terminal increment
(`rate_limited`, or `dropped_oldest` on ring eviction), with the CIDR filter
dropping silently. -/
theorem C3_terminal_counters (env : Env) (st : LState) (stats : Stats)
    (data : List Nat) (addr : String × Nat) (cap : Nat) (cidrOk : Bool)
    (now : ℚ) (ip : String) (pkt : List Nat) (ring : List (List Nat))
    (buckets : List (String × (ℚ × ℚ))) :
    ((processPacket env st stats data addr).2.1.received = stats.received ∧
      ((terminalTotal (processPacket env st stats data addr).2.1 =
          terminalTotal stats ∧
        ((processPacket env st stats data addr).2.2 = .dropShort ∨
         (processPacket env st stats data addr).2.2 = .oversizePayload ∨
         (processPacket env st stats data addr).2.2 = .sizeMismatch ∨
         (processPacket env st stats data addr).2.2 = .workerError)) ∨
       terminalTotal (processPacket env st stats data addr).2.1 =
         terminalTotal stats + 1)) ∧
    ((receiveStep cap cidrOk now ip pkt ring buckets stats).2.2.1.received =
        stats.received + 1 ∧
      (terminalTotal (receiveStep cap cidrOk now ip pkt ring buckets stats).2.2.1 =
          terminalTotal stats ∨
        terminalTotal (receiveStep cap cidrOk now ip pkt ring buckets stats).2.2.1 =
          terminalTotal stats + 1)) := by
  constructor
  · rw [processPacket]
    by_cases h1 : data.length < 27 + 32
    · rw [if_pos h1]
      exact ⟨rfl, Or.inl ⟨rfl, by simp⟩⟩
    · rw [if_neg h1]
      dsimp only
      by_cases h2 : (unpackV3Header data).magic ≠ FastPath.MAGIC
      · rw [if_pos h2]
        exact ⟨rfl, Or.inr (by simp [terminalTotal]; try omega)⟩
      · rw [if_neg h2]
        by_cases h3 : (unpackV3Header data).version ≠ 3
        · rw [if_pos h3]
          exact ⟨rfl, Or.inr (by simp [terminalTotal]; try omega)⟩
        · rw [if_neg h3]
          by_cases h4 : (unpackV3Header data).ptype ≠ 1
          · rw [if_pos h4]
            exact ⟨rfl, Or.inr (by simp [terminalTotal]; try omega)⟩
          · rw [if_neg h4]
            by_cases h5 : (unpackV3Header data).payloadLen > MAX_PAYLOAD
            · rw [if_pos h5]
              exact ⟨rfl, Or.inl ⟨rfl, by simp⟩⟩
            · rw [if_neg h5]
              by_cases h6 : data.length ≠ 27 + (unpackV3Header data).payloadLen + 32
              · rw [if_pos h6]
                exact ⟨rfl, Or.inl ⟨rfl, by simp⟩⟩
              · rw [if_neg h6]
                cases h7 : env.keys (unpackV3Header data).keyId with
                | none => exact ⟨rfl, Or.inr (by simp [terminalTotal]; try omega)⟩
                | some key =>
                  dsimp only
                  by_cases h8 :
                      (env.nowMs - ((unpackV3Header data).tsUnixMs : Int)).natAbs > 5000
                  · rw [if_pos h8]
                    exact ⟨rfl, Or.inr (by simp [terminalTotal]; try omega)⟩
                  · rw [if_neg h8]
                    by_cases h9 : data.drop (27 + (unpackV3Header data).payloadLen) ≠
                        env.mac key (data.take (27 + (unpackV3Header data).payloadLen))
                    · rw [if_pos h9]
                      exact ⟨rfl, Or.inr (by simp [terminalTotal]; try omega)⟩
                    · rw [if_neg h9]
                      by_cases h10 : (seqCheck (unpackV3Header data).seq16
                          ((st.srcSequences.lookup (unpackV3Header data).srcId).getD
                            (0, []))).1 = true
                      · rw [if_neg (not_not_intro h10)]
                        by_cases h11 : env.phash data ∈ st.replayCache
                        · rw [if_pos h11]
                          exact ⟨rfl, Or.inr (by simp [terminalTotal]; try omega)⟩
                        · rw [if_neg h11]
                          cases h12 : env.jdec ((data.drop 27).take
                              (unpackV3Header data).payloadLen) with
                          | none =>
                            exact ⟨rfl, Or.inr (by simp [terminalTotal]; try omega)⟩
                          | some j =>
                            cases j with
                            | obj kvs =>
                              dsimp only
                              by_cases h13 : wallStale env kvs = true
                              · rw [if_pos h13]
                                exact ⟨rfl, Or.inr (by simp [terminalTotal]; try omega)⟩
                              · rw [if_neg h13]
                                exact ⟨rfl, Or.inr (by simp [terminalTotal]; try omega)⟩
                            | null => exact ⟨rfl, Or.inl ⟨rfl, by simp⟩⟩
                            | bool b => exact ⟨rfl, Or.inl ⟨rfl, by simp⟩⟩
                            | num q => exact ⟨rfl, Or.inl ⟨rfl, by simp⟩⟩
                            | str s => exact ⟨rfl, Or.inl ⟨rfl, by simp⟩⟩
                            | arr xs => exact ⟨rfl, Or.inl ⟨rfl, by simp⟩⟩
                      · rw [if_pos h10]
                        exact ⟨rfl, Or.inr (by simp [terminalTotal]; try omega)⟩
  · rw [receiveStep]
    by_cases hc : ¬ cidrOk = true
    · rw [if_pos hc]
      exact ⟨rfl, Or.inl rfl⟩
    · rw [if_neg hc]
      dsimp only
      rcases allowIp_split now ip buckets { stats with received := stats.received + 1 }
        with ⟨bk, hA⟩ | ⟨bk, hA⟩
      · rw [hA]
        dsimp only
        rw [ringPush]
        by_cases hcap : ring.length ≥ cap
        · rw [if_pos hcap]
          dsimp only
          refine ⟨rfl, Or.inr ?_⟩
          simp [terminalTotal]
          try omega
        · rw [if_neg hcap]
          dsimp only
          exact ⟨rfl, Or.inl rfl⟩
      · rw [hA]
        dsimp only
        refine ⟨rfl, Or.inr ?_⟩
        simp [terminalTotal]
        try omega

/-- C2 counterexample: with highest previously seen sequence `H = 300` and an
empty seen-set, the packet sequence `H - 256 = 44` is fresh yet rejected by
`seq16 <= highest_seq - 256`, refuting "sequence H − 256 ... is accepted
once". -/
theorem C2_counterexample :
    (300 - 256) ∉ (300, ([] : List Nat)).2 ∧
    seqCheck (300 - 256) (300, []) = (false, (300, [])) :=
  ⟨by simp, by decide⟩

/-- C2 (amended): for a source whose highest previously seen sequence is
`H ≥ 256`, the replay-window boundary sits one higher than claimed: `H − 256`
is rejected as a replay (`seq16 <= highest_seq - 256` holds with equality) and
so is `H − 257`, while `H − 255`, when not in the seen-set, is accepted, is
recorded in the seen-set, and a second presentation of it is rejected — it is
accepted exactly once. -/
theorem C2_replay_window (H : Nat) (seen : List Nat) (hH : 256 ≤ H)
    (hmem : H - 255 ∉ seen) :
    seqCheck (H - 256) (H, seen) = (false, (H, seen)) ∧
    seqCheck (H - 257) (H, seen) = (false, (H, seen)) ∧
    (seqCheck (H - 255) (H, seen)).1 = true ∧
    H - 255 ∈ (seqCheck (H - 255) (H, seen)).2.2 ∧
    seqCheck (H - 255) (seqCheck (H - 255) (H, seen)).2 =
      (false, (seqCheck (H - 255) (H, seen)).2) := by
  have h256 : seqCheck (H - 256) (H, seen) = (false, (H, seen)) := by
    rw [seqCheck, if_pos]
    omega
  have h257 : seqCheck (H - 257) (H, seen) = (false, (H, seen)) := by
    rw [seqCheck, if_pos]
    omega
  have hstep : seqCheck (H - 255) (H, seen) =
      (true, (H, if ((H - 255) :: seen).length > 256
          then ((H - 255) :: seen).filter (fun (s : Nat) => (H : Int) - 255 ≤ (s : Int))
          else (H - 255) :: seen)) := by
    rw [seqCheck, if_neg (by omega), if_neg hmem]
    dsimp only
    rw [if_neg (by omega : ¬ H - 255 > H)]
  have hmem2 : H - 255 ∈ (seqCheck (H - 255) (H, seen)).2.2 := by
    rw [hstep]
    dsimp only
    by_cases hlen : ((H - 255) :: seen).length > 256
    · rw [if_pos hlen]
      refine List.mem_filter.mpr ⟨List.mem_cons_self _ _, ?_⟩
      simp only [decide_eq_true_eq]
      omega
    · rw [if_neg hlen]
      exact List.mem_cons_self _ _
  exact ⟨h256, h257, by rw [hstep], hmem2,
    seqCheck_seen (H - 255) (seqCheck (H - 255) (H, seen)).2 hmem2⟩

/-- Witness for C2 (amended) at `H = 300` with an empty seen-set: 44 and 43 are
rejected, 45 is accepted, recorded, and rejected on re-presentation. -/
theorem C2_replay_window_witness :
    seqCheck (300 - 256) (300, []) = (false, (300, [])) ∧
    seqCheck (300 - 257) (300, []) = (false, (300, [])) ∧
    (seqCheck (300 - 255) (300, [])).1 = true ∧
    300 - 255 ∈ (seqCheck (300 - 255) (300, [])).2.2 ∧
    seqCheck (300 - 255) (seqCheck (300 - 255) (300, [])).2 =
      (false, (seqCheck (300 - 255) (300, [])).2) :=
  C2_replay_window 300 [] (by norm_num) (by simp)

end Listener

namespace FastPath

theorem nonce32_lt (rand seq16 seq32 : Nat) (hr : rand < 2 ^ 32)
    (hs16 : seq16 < 2 ^ 16) (hs32 : seq32 < 2 ^ 16) :
    nonce32 rand seq16 seq32 < 2 ^ 32 := by
  have hsh : seq32 <<< 16 = seq32 * 2 ^ 16 := Nat.shiftLeft_eq seq32 16
  have h1 : seq32 <<< 16 < 2 ^ 32 := by
    rw [hsh]
    calc seq32 * 2 ^ 16 < 2 ^ 16 * 2 ^ 16 :=
          (Nat.mul_lt_mul_right (by norm_num)).mpr hs32
      _ = 2 ^ 32 := by norm_num
  have h2 : seq16 < 2 ^ 32 := lt_trans hs16 (by norm_num)
  exact Nat.xor_lt_two_pow hr (Nat.or_lt_two_pow h2 h1)

theorem nonce32_ge (rand seq16 seq32 : Nat) (hr : rand < 2 ^ 32)
    (hs32 : 2 ^ 16 ≤ seq32) :
    2 ^ 32 ≤ nonce32 rand seq16 seq32 := by
  have hsh : seq32 <<< 16 = seq32 * 2 ^ 16 := Nat.shiftLeft_eq seq32 16
  have h1 : (2 : Nat) ^ 32 ≤ seq32 <<< 16 := by
    rw [hsh]
    calc (2 : Nat) ^ 32 = 2 ^ 16 * 2 ^ 16 := by norm_num
      _ ≤ seq32 * 2 ^ 16 := Nat.mul_le_mul_right _ hs32
  obtain ⟨i, hi32, hbit⟩ := Nat.ge_two_pow_implies_high_bit_true h1
  have hmbit : (seq16 ||| seq32 <<< 16).testBit i = true := by
    rw [Nat.testBit_or, hbit]
    simp
  have hrbit : rand.testBit i = false :=
    Nat.testBit_lt_two_pow (lt_of_lt_of_le hr (Nat.pow_le_pow_right (by norm_num) hi32))
  have hxbit : (nonce32 rand seq16 seq32).testBit i = true := by
    rw [nonce32, Nat.testBit_xor, hrbit, hmbit]
    rfl
  calc (2 : Nat) ^ 32 ≤ 2 ^ i := Nat.pow_le_pow_right (by norm_num) hi32
    _ ≤ nonce32 rand seq16 seq32 := Nat.testBit_implies_ge hxbit

/-- C10: the v3 sender's packet construction is total exactly while the 32-bit
sequence counter is below `2^16`.  With the counter at `S < 2^16` the nonce
`rand ^ (seq16 | (S << 16))` fits 32 bits and `struct.pack` succeeds; with
`S ≥ 2^16` the XOR operand exceeds 32 bits, so `nonce32 ≥ 2^32`, the `!L`
packing raises `struct.error`, and `send_elevation` (which increments the
counter first) raises instead of sending — and keeps doing so on every
subsequent call, since the counter only grows. -/
theorem C10_sequence_overflow (mac : List Nat → List Nat → List Nat)
    (key payload : List Nat) (ts src rand kid S : Nat)
    (hr : rand < 2 ^ 32) (hts : ts < 2 ^ 64) (hsrc : src < 2 ^ 32)
    (hkid : kid < 2 ^ 8) (hpl : payload.length ≤ v3PayloadBudget) :
    (S < 2 ^ 16 →
      nonce32 rand (S % 2 ^ 16) S < 2 ^ 32 ∧
      ∃ pkt, buildPacketV3 mac key ts src (S % 2 ^ 16) (S + 1) rand kid payload = some pkt) ∧
    (2 ^ 16 ≤ S →
      2 ^ 32 ≤ nonce32 rand (S % 2 ^ 16) S ∧
      buildPacketV3 mac key ts src (S % 2 ^ 16) (S + 1) rand kid payload = none ∧
      sendElevation mac key ts src rand kid payload ⟨S⟩ =
        (.error "struct.error", ⟨S + 1⟩)) := by
  have hs16 : S % 2 ^ 16 < 2 ^ 16 := Nat.mod_lt _ (by norm_num)
  have hplen : payload.length < 2 ^ 16 := by
    have : v3PayloadBudget = 1141 := rfl
    omega
  constructor
  · intro hS
    have hn := nonce32_lt rand (S % 2 ^ 16) S hr hs16 hS
    refine ⟨hn, ?_⟩
    rw [buildPacketV3]
    have hc : ts < 2 ^ 64 ∧ src < 2 ^ 32 ∧ S % 2 ^ 16 < 2 ^ 16 ∧
        nonce32 rand (S % 2 ^ 16) (S + 1 - 1) < 2 ^ 32 ∧
        payload.length < 2 ^ 16 ∧ kid < 2 ^ 8 := by
      simp only [Nat.add_sub_cancel]
      exact ⟨hts, hsrc, hs16, hn, hplen, hkid⟩
    rw [packV3Header, if_pos hc]
    exact ⟨_, rfl⟩
  · intro hS
    have hn := nonce32_ge rand (S % 2 ^ 16) S hr hS
    have hbuild : buildPacketV3 mac key ts src (S % 2 ^ 16) (S + 1) rand kid payload = none := by
      rw [buildPacketV3]
      have hc : ¬ (ts < 2 ^ 64 ∧ src < 2 ^ 32 ∧ S % 2 ^ 16 < 2 ^ 16 ∧
          nonce32 rand (S % 2 ^ 16) (S + 1 - 1) < 2 ^ 32 ∧
          payload.length < 2 ^ 16 ∧ kid < 2 ^ 8) := by
        simp only [Nat.add_sub_cancel]
        intro hcc
        exact absurd hcc.2.2.2.1 (by omega)
      rw [packV3Header, if_neg hc]
    refine ⟨hn, hbuild, ?_⟩
    rw [sendElevation]
    have hbudget : ¬ (payload.length > v3PayloadBudget) := by omega
    rw [if_neg hbudget, hbuild]

/-- Witness for C10: with a 255-byte key id, zero payload and zero randomness the
construction succeeds at counter 3 and fails (raising from then on) at counter
65536. -/
theorem C10_sequence_overflow_witness :
    ((3 < 2 ^ 16 →
      FastPath.nonce32 0 (3 % 2 ^ 16) 3 < 2 ^ 32 ∧
      ∃ pkt, FastPath.buildPacketV3 (fun _ _ => []) [] 0 0 (3 % 2 ^ 16) (3 + 1) 0 1 [] = some pkt) ∧
     (2 ^ 16 ≤ 3 →
      2 ^ 32 ≤ FastPath.nonce32 0 (3 % 2 ^ 16) 3 ∧
      FastPath.buildPacketV3 (fun _ _ => []) [] 0 0 (3 % 2 ^ 16) (3 + 1) 0 1 [] = none ∧
      FastPath.sendElevation (fun _ _ => []) [] 0 0 0 1 [] ⟨3⟩ =
        (.error "struct.error", ⟨3 + 1⟩))) ∧
    ((65536 < 2 ^ 16 →
      FastPath.nonce32 0 (65536 % 2 ^ 16) 65536 < 2 ^ 32 ∧
      ∃ pkt, FastPath.buildPacketV3 (fun _ _ => []) [] 0 0 (65536 % 2 ^ 16) (65536 + 1) 0 1 [] = some pkt) ∧
     (2 ^ 16 ≤ 65536 →
      2 ^ 32 ≤ FastPath.nonce32 0 (65536 % 2 ^ 16) 65536 ∧
      FastPath.buildPacketV3 (fun _ _ => []) [] 0 0 (65536 % 2 ^ 16) (65536 + 1) 0 1 [] = none ∧
      FastPath.sendElevation (fun _ _ => []) [] 0 0 0 1 [] ⟨65536⟩ =
        (.error "struct.error", ⟨65536 + 1⟩))) :=
  ⟨FastPath.C10_sequence_overflow (fun _ _ => []) [] [] 0 0 0 1 3
      (by norm_num) (by norm_num) (by norm_num) (by norm_num) (by norm_num),
   FastPath.C10_sequence_overflow (fun _ _ => []) [] [] 0 0 0 1 65536
      (by norm_num) (by norm_num) (by norm_num) (by norm_num) (by norm_num)⟩

end FastPath

namespace Listener

unseal Rat.add Rat.mul Rat.inv Rat.sub Rat.ofScientific in
/-- C1 counterexample: a packet that meets every premise of the claim — built
by `_build_packet` with a shared key, total size within 1200 bytes, key id
present, age 0 ms, fresh replay state — is dropped by the secondary `wall_ts`
staleness check instead of being delivered: the claim's premises are missing
the wall-clock freshness condition on the payload. -/
theorem C1_counterexample :
    FastPath.buildPacketV3 wallEnv.mac [7] 1700000000000 5 0 1 0 1 payloadWall =
      some pktWall ∧
    pktWall.length ≤ FastPath.MAX_PACKET_SIZE ∧
    wallEnv.keys 1 = some [7] ∧
    (wallEnv.nowMs - (1700000000000 : Int)).natAbs ≤ 5000 ∧
    (processPacket wallEnv ⟨[], []⟩ {} pktWall ("10.0.0.1", 8888)).2.2 =
      .staleWall :=
  ⟨by decide, by decide, rfl, by decide, rfl⟩

/-- C1 (amended): round-trip of the v3 fast-path protocol under the claim's
premises PLUS the secondary wall-clock condition: for a JSON payload whose
bytes decode to an object that passes the `wall_ts` staleness check, with
encoded size + header + HMAC within 1200 bytes, in-range header fields, a
32-bit random, a sub-2^16 sequence counter, the shared key under `key_id`,
age within 5 s, and fresh receiver replay state, the built packet is delivered
exactly once — `valid` increments and the callback receives the decoded object
with metadata `src_id`, `seq16`, `key_id`, `ts_unix_ms` equal to the header
values — and processing the same packet again is rejected as a replay. -/
theorem C1_round_trip (env : Env) (st : LState) (stats : Stats)
    (key payload : List Nat) (kvs : List (String × J))
    (ts src seq16 seqC rand kid : Nat) (addr : String × Nat)
    (hbudget : payload.length + FastPath.V3_HEADER_SIZE + FastPath.HMAC_SIZE ≤
      FastPath.MAX_PACKET_SIZE)
    (hts : ts < 2 ^ 64) (hsrc : src < 2 ^ 32) (hseq : seq16 < 2 ^ 16)
    (hkid : kid < 2 ^ 8) (hrand : rand < 2 ^ 32) (hseqC : seqC - 1 < 2 ^ 16)
    (hkey : env.keys kid = some key)
    (hmac32 : ∀ d, (env.mac key d).length = 32)
    (hage : (env.nowMs - (ts : Int)).natAbs ≤ 5000)
    (hfresh : st.srcSequences.lookup src = none)
    (hfresh2 : st.replayCache = [])
    (hjson : env.jdec payload = some (.obj kvs))
    (hwall : wallStale env kvs = false) :
    ∃ data,
      FastPath.buildPacketV3 env.mac key ts src seq16 seqC rand kid payload =
        some data ∧
      data.length ≤ FastPath.MAX_PACKET_SIZE ∧
      processPacket env st stats data addr =
        (⟨setAssoc src (seq16, [seq16]) st.srcSequences, [env.phash data]⟩,
         { stats with valid := stats.valid + 1 },
         .delivered (.obj kvs)
           { sourceIp := addr.1, sourcePort := addr.2, srcId := src,
             seq16 := seq16, nonce32 := FastPath.nonce32 rand seq16 (seqC - 1),
             keyId := kid, tsUnixMs := ts,
             ageMs := (env.nowMs - (ts : Int)).natAbs }) ∧
      processPacket env
          ⟨setAssoc src (seq16, [seq16]) st.srcSequences, [env.phash data]⟩
          { stats with valid := stats.valid + 1 } data addr =
        (⟨setAssoc src (seq16, [seq16]) st.srcSequences, [env.phash data]⟩,
         { stats with valid := stats.valid + 1, replays := stats.replays + 1 },
         .replaySeq) := by
  simp only [FastPath.V3_HEADER_SIZE, FastPath.HMAC_SIZE,
    FastPath.MAX_PACKET_SIZE] at hbudget
  have hplen : payload.length ≤ MAX_PAYLOAD := by
    simp only [MAX_PAYLOAD]
    omega
  have hpl2 : payload.length < 2 ^ 16 := by
    simp only [MAX_PAYLOAD] at hplen
    omega
  have hnon : FastPath.nonce32 rand seq16 (seqC - 1) < 2 ^ 32 :=
    FastPath.nonce32_lt rand seq16 (seqC - 1) hrand hseq hseqC
  have hall : ts < 2 ^ 64 ∧ src < 2 ^ 32 ∧ seq16 < 2 ^ 16 ∧
      FastPath.nonce32 rand seq16 (seqC - 1) < 2 ^ 32 ∧
      payload.length < 2 ^ 16 ∧ kid < 2 ^ 8 :=
    ⟨hts, hsrc, hseq, hnon, hpl2, hkid⟩
  set HB := FastPath.v3HeaderBytes ts src seq16
    (FastPath.nonce32 rand seq16 (seqC - 1)) payload.length kid with hHB
  set data := HB ++ payload ++ env.mac key (HB ++ payload) with hdata
  have hbuild : FastPath.buildPacketV3 env.mac key ts src seq16 seqC rand kid
      payload = some data := by
    simp only [FastPath.buildPacketV3, FastPath.packV3Header, if_pos hall]
  have hHBl : HB.length = 27 := by
    rw [hHB]
    exact FastPath.v3HeaderBytes_length ts src seq16 _ payload.length kid
  have hdlen : data.length = 27 + payload.length + 32 := by
    rw [hdata]
    simp only [List.length_append, hHBl, hmac32]
  have hlen : data.length ≤ FastPath.MAX_PACKET_SIZE := by
    rw [hdlen]
    simp only [FastPath.MAX_PACKET_SIZE]
    omega
  have hhash : env.phash data ∉ st.replayCache := by
    rw [hfresh2]
    simp
  have hdel := processPacket_delivers env st stats key payload data kvs
    ts src seq16 seqC rand kid addr hbuild hkey hmac32 hplen hage hfresh
    hhash hjson hwall
  rw [hfresh2] at hdel
  have hrep := processPacket_replays env
    ⟨setAssoc src (seq16, [seq16]) st.srcSequences, [env.phash data]⟩
    { stats with valid := stats.valid + 1 } key payload data
    ts src seq16 seqC rand kid addr hbuild hkey hmac32 hplen hage
    (lookup_setAssoc_self src (seq16, [seq16]) st.srcSequences)
  exact ⟨data, hbuild, hlen, by simpa using hdel, hrep⟩

/-- Witness for C1 (amended): the `{"a":1}` payload under `sampleEnv` (key id 1,
clock 1000 ms) is built, delivered once with the header metadata, and replayed
on the second processing. -/
theorem C1_round_trip_witness :
    ∃ data,
      FastPath.buildPacketV3 sampleEnv.mac [7] 1000 5 0 1 0 1 payloadA =
        some data ∧
      data.length ≤ FastPath.MAX_PACKET_SIZE ∧
      processPacket sampleEnv ⟨[], []⟩ {} data ("1.2.3.4", 9) =
        (⟨setAssoc 5 (0, [0]) [], [sampleEnv.phash data]⟩,
         { valid := 1 },
         .delivered (.obj [("a", .num 1)])
           { sourceIp := "1.2.3.4", sourcePort := 9, srcId := 5, seq16 := 0,
             nonce32 := FastPath.nonce32 0 0 (1 - 1), keyId := 1,
             tsUnixMs := 1000,
             ageMs := ((1000 : Int) - (1000 : Nat)).natAbs }) ∧
      processPacket sampleEnv ⟨setAssoc 5 (0, [0]) [], [sampleEnv.phash data]⟩
          { valid := 1 } data ("1.2.3.4", 9) =
        (⟨setAssoc 5 (0, [0]) [], [sampleEnv.phash data]⟩,
         { valid := 1, replays := 1 },
         .replaySeq) :=
  C1_round_trip sampleEnv ⟨[], []⟩ {} [7] payloadA [("a", .num 1)]
    1000 5 0 1 0 1 ("1.2.3.4", 9) (by decide) (by norm_num) (by norm_num)
    (by norm_num) (by norm_num) (by norm_num) (by norm_num) rfl
    (fun d => rfl) (by decide) rfl rfl rfl rfl

end Listener

namespace Telemetry

theorem rawScore_bounds (sketch graph : List (String × ℚ))
    (hp : 0 ≤ ((List.lookup "scan_ports" sketch).getD 0))
    (hn : 0 ≤ ((List.lookup "new_procs" graph).getD 0))
    (hw : 0 ≤ ((List.lookup "network_procs" graph).getD 0)) :
    0 ≤ rawScore sketch graph ∧ rawScore sketch graph ≤ 1 := by
  rw [rawScore]
  set ports := (List.lookup "scan_ports" sketch).getD 0 with hports
  set churn := (List.lookup "new_procs" graph).getD 0 +
    (List.lookup "network_procs" graph).getD 0 with hchurn
  have hc0 : (0 : ℚ) ≤ churn := by rw [hchurn]; linarith
  have ha0 : (0 : ℚ) ≤ min (ports / 10) 1 := le_min (by positivity) (by norm_num)
  have ha1 : min (ports / 10) 1 ≤ 1 := min_le_right _ _
  have hb0 : (0 : ℚ) ≤ min (churn / 8) 1 := le_min (by positivity) (by norm_num)
  have hb1 : min (churn / 8) 1 ≤ 1 := min_le_right _ _
  constructor <;> nlinarith

theorem scoreSignal_bounds (sketch graph : List (String × ℚ)) (prev : ℚ)
    (hp : 0 ≤ ((List.lookup "scan_ports" sketch).getD 0))
    (hn : 0 ≤ ((List.lookup "new_procs" graph).getD 0))
    (hw : 0 ≤ ((List.lookup "network_procs" graph).getD 0))
    (hprev0 : 0 ≤ prev) (hprev1 : prev ≤ 1) :
    0 ≤ scoreSignal sketch graph prev ∧ scoreSignal sketch graph prev ≤ 1 := by
  obtain ⟨hr0, hr1⟩ := rawScore_bounds sketch graph hp hn hw
  rw [scoreSignal]
  constructor <;> nlinarith

/-- Non-negative tick inputs: the three count fields the score reads are
counts in the source (`randint` results), hence non-negative. -/
def TickNN (t : List (String × ℚ) × List (String × ℚ)) : Prop :=
  0 ≤ ((List.lookup "scan_ports" t.1).getD 0) ∧
  0 ≤ ((List.lookup "new_procs" t.2).getD 0) ∧
  0 ≤ ((List.lookup "network_procs" t.2).getD 0)

instance (t : List (String × ℚ) × List (String × ℚ)) : Decidable (TickNN t) := by
  unfold TickNN; infer_instance

theorem scoreTraceAux_mem (ticks : List (List (String × ℚ) × List (String × ℚ)))
    (prev : ℚ) (hprev0 : 0 ≤ prev) (hprev1 : prev ≤ 1)
    (hnn : ∀ t ∈ ticks, TickNN t) :
    ∀ s ∈ scoreTraceAux prev ticks, 0 ≤ s ∧ s ≤ 1 := by
  induction ticks generalizing prev with
  | nil => simp [scoreTraceAux]
  | cons t rest ih =>
    obtain ⟨sk, gr⟩ := t
    obtain ⟨hp, hn, hw⟩ := hnn (sk, gr) (by simp)
    have hh := scoreSignal_bounds sk gr prev hp hn hw hprev0 hprev1
    intro s hs
    rw [scoreTraceAux] at hs
    rcases List.mem_cons.1 hs with h | h
    · exact h ▸ hh
    · exact ih (scoreSignal sk gr prev) hh.1 hh.2
        (fun u hu => hnn u (List.mem_cons_of_mem _ hu)) s h

theorem scoreTraceAux_getD (ticks : List (List (String × ℚ) × List (String × ℚ)))
    (prev : ℚ) (i : Nat) (hi : i < ticks.length) :
    (scoreTraceAux prev ticks).getD i 0 =
      scoreSignal (ticks.getD i ([], [])).1 (ticks.getD i ([], [])).2
        (if i = 0 then prev else (scoreTraceAux prev ticks).getD (i - 1) 0) := by
  induction ticks generalizing prev i with
  | nil => simp at hi
  | cons t rest ih =>
    obtain ⟨sk, gr⟩ := t
    match i with
    | 0 => simp [scoreTraceAux]
    | j + 1 =>
      have hj : j < rest.length := by simpa using hi
      have := ih (scoreSignal sk gr prev) j hj
      rw [scoreTraceAux]
      simp only [List.getD_cons_succ, List.getD_cons_zero]
      rw [this]
      congr 1
      match j with
      | 0 => simp [scoreTraceAux]
      | k + 1 =>
        simp only [Nat.add_sub_cancel, scoreTraceAux]
        simp [List.getD_cons_succ]

/-- C9: per-tick sentinel scoring.  Every published score is the EWMA
`0.4·raw + 0.6·previous` of the raw score
`0.7·min(1, scan_ports/10) + 0.3·min(1, (new_procs+network_procs)/8)`
(previous score 0 on the first tick), and every published score lies in
`[0, 1]` whenever the per-tick counts are non-negative. -/
theorem C9_sentinel_scoring (ticks : List (List (String × ℚ) × List (String × ℚ)))
    (hnn : ∀ t ∈ ticks, TickNN t) :
    (∀ i, i < ticks.length →
      (scoreTrace ticks).getD i 0 =
        0.4 * rawScore (ticks.getD i ([], [])).1 (ticks.getD i ([], [])).2 +
          0.6 * (if i = 0 then 0 else (scoreTrace ticks).getD (i - 1) 0)) ∧
    (∀ s ∈ scoreTrace ticks, 0 ≤ s ∧ s ≤ 1) := by
  constructor
  · intro i hi
    have h := scoreTraceAux_getD ticks 0 i hi
    rw [scoreTrace, h, scoreSignal]
  · exact scoreTraceAux_mem ticks 0 (le_refl 0) (by norm_num) hnn

/-- Witness for C9: one tick with 3 scanned ports and 2 new processes publishes
exactly the EWMA of its raw score. -/
theorem C9_sentinel_scoring_witness :
    (scoreTrace [([("scan_ports", 3)], [("new_procs", 2)])]).getD 0 0 =
      0.4 * rawScore
          (([("scan_ports", (3 : ℚ))], [("new_procs", (2 : ℚ))]) :
            List (String × ℚ) × List (String × ℚ)).1
          (([("scan_ports", (3 : ℚ))], [("new_procs", (2 : ℚ))]) :
            List (String × ℚ) × List (String × ℚ)).2 +
        0.6 * (if 0 = 0 then 0 else
          (scoreTrace [([("scan_ports", 3)], [("new_procs", 2)])]).getD (0 - 1) 0) := by
  have h := (C9_sentinel_scoring [([("scan_ports", 3)], [("new_procs", 2)])]
    (by intro t ht; simp at ht; subst ht; decide)).1 0 (by norm_num)
  simpa using h

end Telemetry

namespace Gossip

/-- C4: the elevation predicate.  On non-empty window metrics, elevation is
granted exactly when the backoff has elapsed, the instance is not already
elevated, the witness count meets the quorum threshold, and either p95 meets
the fast-path score or the mean meets the node score threshold on the
evaluation at which the consecutive counter reaches 2; the checks apply in the
order backoff, already-elevated, quorum, fast path, hysteresis (visible in the
reason codes), and an evaluation passing quorum but failing both score
conditions resets the consecutive counter. -/
theorem C4_elevation_predicate (cfg : WatcherCfg) (st : WatcherState) (now : ℚ)
    (m : QuorumMetrics) :
    ((shouldElevate cfg st now (some m)).1 = true ↔
      (cfg.elevationBackoff ≤ now - st.lastElevation ∧ st.elevated = false ∧
       cfg.quorumThreshold ≤ m.witnessCount ∧
       (cfg.fastPathScore ≤ m.p95Score ∨
        (cfg.nodeScoreThreshold ≤ m.meanScore ∧ 1 ≤ st.consecutive)))) ∧
    (now - st.lastElevation < cfg.elevationBackoff →
      shouldElevate cfg st now (some m) = (false, .backoff, st)) ∧
    (cfg.elevationBackoff ≤ now - st.lastElevation → st.elevated = true →
      shouldElevate cfg st now (some m) = (false, .alreadyElevated, st)) ∧
    (cfg.elevationBackoff ≤ now - st.lastElevation → st.elevated = false →
      m.witnessCount < cfg.quorumThreshold →
      shouldElevate cfg st now (some m) = (false, .insufficientQuorum, st)) ∧
    (cfg.elevationBackoff ≤ now - st.lastElevation → st.elevated = false →
      cfg.quorumThreshold ≤ m.witnessCount → cfg.fastPathScore ≤ m.p95Score →
      shouldElevate cfg st now (some m) =
        (true, .fastPath, { st with elevated := true })) ∧
    (cfg.elevationBackoff ≤ now - st.lastElevation → st.elevated = false →
      cfg.quorumThreshold ≤ m.witnessCount → m.p95Score < cfg.fastPathScore →
      cfg.nodeScoreThreshold ≤ m.meanScore →
      (1 ≤ st.consecutive →
        shouldElevate cfg st now (some m) =
          (true, .hysteresis,
            { st with consecutive := st.consecutive + 1, elevated := true })) ∧
      (st.consecutive = 0 →
        shouldElevate cfg st now (some m) =
          (false, .building, { st with consecutive := 1 }))) ∧
    (cfg.elevationBackoff ≤ now - st.lastElevation → st.elevated = false →
      cfg.quorumThreshold ≤ m.witnessCount → m.p95Score < cfg.fastPathScore →
      m.meanScore < cfg.nodeScoreThreshold →
      shouldElevate cfg st now (some m) =
        (false, .resetHysteresis, { st with consecutive := 0 })) := by
  simp only [shouldElevate]
  split_ifs with h1 h2 h3 h4 h5 h6 <;> simp_all [not_lt, not_and, not_or, not_le] <;> omega

theorem windowFilter_mem (windowS now : ℚ) (runId : Option String)
    (signals : List LeaseSignal) (s : LeaseSignal) :
    s ∈ windowFilter windowS now runId signals ↔
      s ∈ signals ∧ ∃ t, s.serverTs = some t ∧ now - windowS ≤ t ∧
        (runId = none ∨ s.runId = runId) := by
  rw [windowFilter, List.mem_filter]
  constructor
  · rintro ⟨hs, hp⟩
    refine ⟨hs, ?_⟩
    match hts : s.serverTs with
    | none => rw [hts] at hp; cases hp
    | some t =>
      rw [hts] at hp
      simp only [Bool.and_eq_true, decide_eq_true_eq] at hp
      refine ⟨t, rfl, hp.1, ?_⟩
      match runId with
      | none => exact Or.inl rfl
      | some r =>
        have := hp.2
        simp only [decide_eq_true_eq] at this
        exact Or.inr this
  · rintro ⟨hs, t, hts, hcut, hrun⟩
    refine ⟨hs, ?_⟩
    rw [hts]
    simp only [Bool.and_eq_true, decide_eq_true_eq]
    refine ⟨hcut, ?_⟩
    match runId, hrun with
    | none, _ => rfl
    | some r, Or.inr hr => simp [hr]

unseal Rat.add Rat.mul Rat.inv Rat.sub Rat.ofScientific in
/-- C5 counterexample: twenty distinct-node in-window signals, nineteen scoring
0 and one scoring 1.  The implementation's percentile (`sorted[int(0.95*len)]`,
0-based index 19) returns 1, while the nearest-rank (no interpolation) 95th
percentile is the 19th-ranked value, 0 — the claim's percentile definition
fails on the code. -/
theorem C5_counterexample :
    (computeSlidingWindowQuorum 1 100 none sigs20).map (·.p95Score) = some 1 ∧
    p95NearestRank (sigs20.map (·.score)) = 0 ∧
    (1 : ℚ) ≠ 0 :=
  ⟨by decide, by decide, by norm_num⟩

/-- C5 (amended): on a non-empty window — the signals with a server timestamp in
the last `windowS` seconds and a matching run id — `witness_count` is the number
of distinct node identifiers, `total_samples` the window size, `mean_score` the
arithmetic mean, and `p95_score` the ascending-sorted scores at 0-based index
`⌊0.95·n⌋` (`int(0.95*len)` in the source) — one rank above the nearest-rank
percentile whenever `0.95·n` is an integer. -/
theorem C5_quorum_statistics (windowS now : ℚ) (runId : Option String)
    (signals : List LeaseSignal) (m : QuorumMetrics)
    (h : computeSlidingWindowQuorum windowS now runId signals = some m) :
    (∀ s, s ∈ windowFilter windowS now runId signals ↔
      s ∈ signals ∧ ∃ t, s.serverTs = some t ∧ now - windowS ≤ t ∧
        (runId = none ∨ s.runId = runId)) ∧
    windowFilter windowS now runId signals ≠ [] ∧
    m.witnessCount =
      ((windowFilter windowS now runId signals).map (·.node)).toFinset.card ∧
    m.totalSamples = (windowFilter windowS now runId signals).length ∧
    m.meanScore = ((windowFilter windowS now runId signals).map (·.score)).sum /
      ((windowFilter windowS now runId signals).length : ℚ) ∧
    m.p95Score = (sortScores ((windowFilter windowS now runId signals).map (·.score))).getD
      (19 * (windowFilter windowS now runId signals).length / 20) 0 ∧
    m.confidence = confidenceOf m.witnessCount m.meanScore := by
  rw [computeSlidingWindowQuorum] at h
  split at h
  · cases h
  · next he =>
    refine ⟨windowFilter_mem windowS now runId signals,
      by simpa [List.isEmpty_iff] using he, ?_⟩
    injection h with h2
    subst h2
    simp [mkQuorumMetrics, p95Index, List.card_toFinset]

unseal Rat.add Rat.mul Rat.inv Rat.sub Rat.ofScientific in
/-- Witness for C5 (amended): the twenty-signal window yields 20 distinct
witnesses and implementation percentile 1. -/
theorem C5_quorum_statistics_witness :
    (20 : Nat) = ((windowFilter 1 100 none sigs20).map (·.node)).toFinset.card ∧
    (1 : ℚ) = (sortScores ((windowFilter 1 100 none sigs20).map (·.score))).getD
      (19 * (windowFilter 1 100 none sigs20).length / 20) 0 :=
  ⟨(C5_quorum_statistics 1 100 none sigs20 ⟨20, 20, 1 / 20, 1, 99, 100, 1 / 16⟩
      (by decide)).2.2.1,
   (C5_quorum_statistics 1 100 none sigs20 ⟨20, 20, 1 / 20, 1, 99, 100, 1 / 16⟩
      (by decide)).2.2.2.2.2.1⟩

theorem strLeads_iff (n h : List Char) :
    strLeads n h = true ↔ ∃ t, h = n ++ t := by
  induction n generalizing h with
  | nil => simp [strLeads]
  | cons a as ih =>
    cases h with
    | nil => simp [strLeads]
    | cons b hs =>
      rw [strLeads]
      simp only [Bool.and_eq_true, beq_iff_eq, ih]
      constructor
      · rintro ⟨hab, t, ht⟩
        exact ⟨t, by rw [← hab, ht, List.cons_append]⟩
      · rintro ⟨t, ht⟩
        rw [List.cons_append] at ht
        injection ht with h1 h2
        exact ⟨h1.symm, t, h2⟩

theorem strHas_iff (n h : List Char) :
    strHas n h = true ↔ ∃ s t, h = s ++ n ++ t := by
  induction h with
  | nil =>
    rw [strHas]
    cases n with
    | nil => simp
    | cons a as => simp
  | cons c cs ih =>
    rw [strHas]
    simp only [Bool.or_eq_true, strLeads_iff, ih]
    constructor
    · rintro (⟨t, ht⟩ | ⟨s, t, ht⟩)
      · exact ⟨[], t, by simpa using ht⟩
      · exact ⟨c :: s, t, by rw [ht]; simp⟩
    · rintro ⟨s, t, ht⟩
      cases s with
      | nil => exact Or.inl ⟨t, by simpa using ht⟩
      | cons c2 s2 =>
        rw [List.cons_append, List.cons_append] at ht
        injection ht with h1 h2
        exact Or.inr ⟨s2, t, h2⟩

/-- C6 counterexample: a fast-path elevation for run id `r1` is written under
the name `aswarm-elevated-fastpath-r1`, not `aswarm-elevated-r1`, and the
lease-path background artifact's `elevation.json` carries no `confidence` key —
the claim's single name and field list fail on the code. -/
theorem C6_counterexample :
    (createFastpathElevationArtifact
        (fastpathElevationEvent "2025-01-01T00:00:00+00:00" "node-a" 0.95 4 ""
          "fastpath" 0 "r1")).cmName ≠ "aswarm-elevated-r1" ∧
    (createFastpathElevationArtifact
        (fastpathElevationEvent "2025-01-01T00:00:00+00:00" "node-a" 0.95 4 ""
          "fastpath" 0 "r1")).cmName = "aswarm-elevated-fastpath-r1" ∧
    "confidence" ∉ (createElevationArtifactBg 3 80
        (mkQuorumMetrics 3 3 0.8 0.95 0 1) (some "r1")
        "2025-01-01T00:00:00+00:00" "fast_path").jsonKeys :=
  ⟨by decide, by decide, by decide⟩

/-- C6 (amended): lease-path elevations write `aswarm-elevated-<runid>` with a
single `elevation.json` field containing run_id, decision_ts_server,
witness_count, mean_score, p95_score, threshold, window_ms and reason (no
confidence); fast-path elevations write `aswarm-elevated-fastpath-<runid>` with
a different minimal event schema; both writers use create-only (never patch);
the fast-path writer swallows exactly `ApiException` status 409, while the
lease-path background writer swallows any exception whose text contains the
substring `409` — including non-409 errors — and logs the rest. -/
theorem C6_artifact_emission (qt wm : Nat) (m : QuorumMetrics) (r : String)
    (dts reason node sel et rid : String) (score wc lat : ℚ) :
    (createElevationArtifactBg qt wm m (some r) dts reason).cmName =
      (if r ≠ "" then "aswarm-elevated-" ++ r else "aswarm-elevated") ∧
    (createElevationArtifactBg qt wm m (some r) dts reason).jsonKeys =
      ["run_id", "decision_ts_server", "witness_count", "mean_score",
       "p95_score", "threshold", "window_ms", "reason"] ∧
    (createElevationArtifactBg qt wm m (some r) dts reason).dataKeyNames =
      ["elevation.json"] ∧
    (createElevationArtifactBg qt wm m (some r) dts reason).isCreate = true ∧
    (createFastpathElevationArtifact
        (fastpathElevationEvent dts node score wc sel et lat rid)).cmName =
      (if rid ≠ "" then "aswarm-elevated-fastpath-" ++ rid
        else "aswarm-elevated-fastpath") ∧
    (createFastpathElevationArtifact
        (fastpathElevationEvent dts node score wc sel et lat rid)).jsonKeys =
      ["elevation", "decision_ts_server", "source", "node", "score",
       "witness_count", "selector", "event_type", "latency_ms", "run_id"] ∧
    (createFastpathElevationArtifact
        (fastpathElevationEvent dts node score wc sel et lat rid)).dataKeyNames =
      ["elevation.json"] ∧
    (createFastpathElevationArtifact
        (fastpathElevationEvent dts node score wc sel et lat rid)).isCreate = true ∧
    (∀ s : Nat, fastpathConflictBenign s = true ↔ s = 409) ∧
    (∀ e : String, bgConflictBenign e = true ↔
      ∃ s t : List Char, e.data = s ++ "409".data ++ t) ∧
    bgConflictBenign "(409) Conflict" = true ∧
    bgConflictBenign "(500) rv 214093" = true ∧
    bgConflictBenign "(500) error" = false := by
  refine ⟨?_, ?_, ?_, ?_, ?_, ?_, ?_, ?_, ?_, ?_, ?_, ?_, ?_⟩
  · by_cases hr : r = "" <;>
      simp [createElevationArtifactBg, hr, ApiAction.cmName]
  · simp [createElevationArtifactBg, ApiAction.jsonKeys]
  · simp [createElevationArtifactBg, ApiAction.dataKeyNames]
  · simp [createElevationArtifactBg, ApiAction.isCreate]
  · by_cases hr : rid = "" <;>
      simp [createFastpathElevationArtifact, fastpathElevationEvent, hr,
        ApiAction.cmName, List.lookup]
  · simp [createFastpathElevationArtifact, fastpathElevationEvent,
      ApiAction.jsonKeys, List.lookup]
  · simp [createFastpathElevationArtifact, fastpathElevationEvent,
      ApiAction.dataKeyNames, List.lookup]
  · simp [createFastpathElevationArtifact, fastpathElevationEvent,
      ApiAction.isCreate, List.lookup]
  · intro s
    simp [fastpathConflictBenign]
  · intro e
    exact strHas_iff ("409".data) e.data
  · decide
  · decide
  · decide

end Gossip

namespace MicroAct

theorem lookup_append_of_none {α : Type} (k : String) (A B : List (String × α))
    (h : A.lookup k = none) : (A ++ B).lookup k = B.lookup k := by
  induction A with
  | nil => simp
  | cons x t ih =>
    obtain ⟨k2, v2⟩ := x
    rw [List.lookup] at h
    rw [List.cons_append, List.lookup]
    cases hbe : (k == k2) with
    | true => rw [hbe] at h; cases h
    | false => rw [hbe] at h; exact ih h

theorem lookup_none_filter {α : Type} (k : String) (p : String × α → Bool)
    (l : List (String × α)) (h : l.lookup k = none) :
    (l.filter p).lookup k = none := by
  induction l with
  | nil => simp
  | cons x t ih =>
    obtain ⟨k2, v2⟩ := x
    rw [List.lookup] at h
    cases hbe : (k == k2) with
    | true => rw [hbe] at h; cases h
    | false =>
      rw [hbe] at h
      rw [List.filter]
      cases p (k2, v2) with
      | true => rw [List.lookup, hbe]; exact ih h
      | false => exact ih h

theorem setAssoc_append_of_none {α : Type} (k : String) (v : α)
    (l : List (String × α)) (h : l.lookup k = none) :
    setAssoc k v l = l ++ [(k, v)] := by
  induction l with
  | nil => rfl
  | cons x t ih =>
    obtain ⟨k2, v2⟩ := x
    rw [List.lookup] at h
    cases hbe : (k == k2) with
    | true => rw [hbe] at h; cases h
    | false =>
      rw [hbe] at h
      have hne : k2 ≠ k := by
        intro he
        subst he
        simp at hbe
      rw [setAssoc, if_neg hne, ih h, List.cons_append]

theorem runTicks_nil (tbl : List (String × TtlEntry)) : runTicks [] tbl = tbl := rfl

theorem runTicks_cons (u : ℚ) (us : List ℚ) (tbl : List (String × TtlEntry)) :
    runTicks (u :: us) tbl = runTicks us ((monitorTick u tbl).1) := rfl

theorem runTicks_append (us vs : List ℚ) (tbl : List (String × TtlEntry)) :
    runTicks (us ++ vs) tbl = runTicks vs (runTicks us tbl) := by
  simp [runTicks, List.foldl_append]

theorem monitorTick_keep (u : ℚ) (h : String) (e : TtlEntry)
    (A : List (String × TtlEntry)) (hu : ¬ e.expireMono ≤ u) :
    (monitorTick u (A ++ [(h, e)])).1 =
      A.filter (fun x => ¬ (x.2.expireMono ≤ u)) ++ [(h, e)] := by
  rw [monitorTick]
  simp only [List.filter_append]
  congr 1
  simp [hu, not_le.mp hu]

theorem monitorTick_expire (u : ℚ) (h : String) (e : TtlEntry)
    (A : List (String × TtlEntry)) (hu : e.expireMono ≤ u) :
    (monitorTick u (A ++ [(h, e)])).1 =
      A.filter (fun x => ¬ (x.2.expireMono ≤ u)) := by
  rw [monitorTick]
  simp only [List.filter_append]
  have : ([(h, e)].filter (fun x => ¬ (x.2.expireMono ≤ u))) = [] := by simp [hu]
  rw [this, List.append_nil]

theorem runTicks_keep (h : String) (e : TtlEntry) (us : List ℚ)
    (hus : ∀ u ∈ us, u < e.expireMono) :
    ∀ A : List (String × TtlEntry), A.lookup h = none →
      ∃ A2, runTicks us (A ++ [(h, e)]) = A2 ++ [(h, e)] ∧ A2.lookup h = none := by
  induction us with
  | nil => intro A hA; exact ⟨A, rfl, hA⟩
  | cons u us ih =>
    intro A hA
    have hu : ¬ e.expireMono ≤ u := not_le.mpr (hus u (by simp))
    rw [runTicks_cons, monitorTick_keep u h e A hu]
    exact ih (fun w hw => hus w (by simp [hw])) _
      (lookup_none_filter h _ A hA)

theorem runTicks_lookup_none (vs : List ℚ) (h : String) :
    ∀ l : List (String × TtlEntry), l.lookup h = none →
      (runTicks vs l).lookup h = none := by
  induction vs with
  | nil => intro l hl; exact hl
  | cons v vs ih =>
    intro l hl
    rw [runTicks_cons, monitorTick]
    exact ih _ (lookup_none_filter h _ l hl)

/-- C8 (amended): for a successful actuation with positive TTL whose handle is
new, the handle enters the TTL table at scheduling with deadline
`monotonic()+ttl`, survives every monitor tick strictly before the deadline,
and is removed by the first tick at or after the deadline — unconditionally,
before the revert even runs, so independently of the revert's outcome — and
stays absent thereafter. -/
theorem C8_ttl_lifecycle (a h iso : String) (ttl t0 : ℚ)
    (tbl : List (String × TtlEntry)) (httl : 0 < ttl)
    (hnone : tbl.lookup h = none) :
    (scheduleTtlRevert a h ttl t0 iso tbl).lookup h =
      some ⟨a, t0 + ttl, t0, iso⟩ ∧
    (∀ us, (∀ u ∈ us, u < t0 + ttl) →
      (runTicks us (scheduleTtlRevert a h ttl t0 iso tbl)).lookup h =
        some ⟨a, t0 + ttl, t0, iso⟩) ∧
    (∀ us v vs, (∀ u ∈ us, u < t0 + ttl) → t0 + ttl ≤ v →
      (runTicks (us ++ v :: vs) (scheduleTtlRevert a h ttl t0 iso tbl)).lookup h =
        none) := by
  have hsch : scheduleTtlRevert a h ttl t0 iso tbl =
      tbl ++ [(h, ⟨a, t0 + ttl, t0, iso⟩)] := by
    rw [scheduleTtlRevert, if_neg (not_le.mpr httl)]
    exact setAssoc_append_of_none h _ tbl hnone
  have hself : ([((h : String), (⟨a, t0 + ttl, t0, iso⟩ : TtlEntry))]).lookup h =
      some ⟨a, t0 + ttl, t0, iso⟩ := by simp [List.lookup]
  refine ⟨?_, ?_, ?_⟩
  · rw [hsch, lookup_append_of_none h tbl _ hnone, hself]
  · intro us hus
    rw [hsch]
    obtain ⟨A2, hA2, hA2n⟩ :=
      runTicks_keep h ⟨a, t0 + ttl, t0, iso⟩ us hus tbl hnone
    rw [hA2, lookup_append_of_none h A2 _ hA2n, hself]
  · intro us v vs hus hv
    rw [hsch, runTicks_append]
    obtain ⟨A2, hA2, hA2n⟩ :=
      runTicks_keep h ⟨a, t0 + ttl, t0, iso⟩ us hus tbl hnone
    rw [hA2, runTicks_cons]
    rw [monitorTick_expire v h _ A2 hv]
    exact runTicks_lookup_none vs h _
      (lookup_none_filter h _ A2 hA2n)

unseal Rat.add Rat.mul Rat.inv Rat.sub Rat.ofScientific in
/-- Witness for C8 (amended): a 5-second TTL scheduled at monotonic instant 10
survives ticks at 12 and 14, and the tick at 15 removes it (the following tick
at 16 finds nothing). -/
theorem C8_ttl_lifecycle_witness :
    (scheduleTtlRevert "networkpolicy_isolate" "d/p" 5 10 "t" []).lookup "d/p" =
      some ⟨"networkpolicy_isolate", 10 + 5, 10, "t"⟩ ∧
    (runTicks [12, 14]
        (scheduleTtlRevert "networkpolicy_isolate" "d/p" 5 10 "t" [])).lookup "d/p" =
      some ⟨"networkpolicy_isolate", 10 + 5, 10, "t"⟩ ∧
    (runTicks ([12, 14] ++ 15 :: [16])
        (scheduleTtlRevert "networkpolicy_isolate" "d/p" 5 10 "t" [])).lookup "d/p" =
      none := by
  have H := C8_ttl_lifecycle "networkpolicy_isolate" "d/p" "t" 5 10 []
    (by norm_num) rfl
  refine ⟨H.1, H.2.1 [12, 14] ?_, H.2.2 [12, 14] 15 [16] ?_ (by norm_num)⟩
  · intro u hu
    rcases List.mem_cons.1 hu with h | h
    · subst h; norm_num
    · simp at h; subst h; norm_num
  · intro u hu
    rcases List.mem_cons.1 hu with h | h
    · subst h; norm_num
    · simp at h; subst h; norm_num

unseal Rat.add Rat.mul Rat.inv Rat.sub Rat.ofScientific in
/-- C8 counterexample: a successful actuation with `ttl_seconds = 0` returns a
revert handle, but `_schedule_ttl_revert` inserts nothing, so the handle is
absent from the TTL table from the moment of application — refuting presence
until the first post-TTL monitor tick. -/
theorem C8_counterexample :
    (∃ r, execute sampleCatEnv "networkpolicy_isolate"
        [("namespace", .str "d"), ("selector", .str "app=x"),
         ("ttl_seconds", .int 0)] = .ok r ∧
      r.success = true ∧ r.revertHandle = some "d/aswarm-isolate-0") ∧
    (scheduleTtlRevert "networkpolicy_isolate" "d/aswarm-isolate-0" 0 100 "t"
        []).lookup "d/aswarm-isolate-0" = none :=
  ⟨⟨_, rfl, rfl, rfl⟩, rfl⟩

/-- C7 (amended): for parameter maps in which `rate_mbps`, when present, is a
number (or bool) and `selector`, when present, is a string, `execute` always
returns an `ActuationResult` value: unknown actions, rings above `MAX_RING`,
missing required parameters, invalid parameter values, and failed primitives
are all reported as `success = false` with a human-readable message and no
revert handle (the failure records below carry `revertHandle = none` by
construction).  Outside these typing conditions the pre-`try` validation
raises — see the counterexample. -/
theorem C7_execute_returns_values (env : CatEnv) (actionId : String)
    (params : List (String × PVal))
    (hrate : ∀ v, List.lookup "rate_mbps" params = some v → isNumericPV v = true)
    (hsel : ∀ v, List.lookup "selector" params = some v → isStrPV v = true) :
    (∃ r : ActuationResult, execute env actionId params = .ok r) ∧
    (getAction actionId = none →
      execute env actionId params =
        .ok { success := false, message := "Unknown action: " ++ actionId }) ∧
    (∀ a, getAction actionId = some a → env.maxRing < a.ring →
      execute env actionId params =
        .ok { success := false,
              message := "Action " ++ actionId ++ " (Ring " ++ toString a.ring ++
                ") exceeds MAX_RING=" ++ toString env.maxRing }) ∧
    (∀ a, getAction actionId = some a → ¬ env.maxRing < a.ring →
      (a.requiresParams.filter (fun q => (List.lookup q params).isNone)).isEmpty = false →
      execute env actionId params =
        .ok { success := false,
              message := "Missing required parameters: " ++ String.intercalate ", "
                (a.requiresParams.filter (fun q => (List.lookup q params).isNone)) }) ∧
    (∀ a v, getAction actionId = some a → ¬ env.maxRing < a.ring →
      (a.requiresParams.filter (fun q => (List.lookup q params).isNone)).isEmpty = true →
      List.lookup "rate_mbps" params = some v → pyLeZero v = .ok true →
      execute env actionId params =
        .ok { success := false, message := "Invalid rate_mbps: must be positive" }) ∧
    (∀ a s, getAction actionId = some a → ¬ env.maxRing < a.ring →
      (a.requiresParams.filter (fun q => (List.lookup q params).isNone)).isEmpty = true →
      List.lookup "rate_mbps" params = none →
      List.lookup "selector" params = some (.str s) → pyStrip s = "" →
      execute env actionId params =
        .ok { success := false, message := "Invalid selector: cannot be empty" }) ∧
    (∀ a v, getAction actionId = some a → ¬ env.maxRing < a.ring →
      (a.requiresParams.filter (fun q => (List.lookup q params).isNone)).isEmpty = true →
      List.lookup "rate_mbps" params = none →
      List.lookup "selector" params = none →
      List.lookup "pid" params = some v → pyIntConvertible v = false →
      execute env actionId params =
        .ok { success := false, message := "Invalid pid: must be integer" }) ∧
    (∀ ps ttl pf out, env.dryRun = false →
      env.runCmd ["kubectl", "apply", "-f", "<policy-file>"] = (false, out) →
      dispatch env "networkpolicy_isolate" ps ttl pf =
        { success := false, message := "Failed to apply NetworkPolicy: " ++ out }) := by
  refine ⟨?_, ?_, ?_, ?_, ?_, ?_, ?_, ?_⟩
  · unfold execute
    cases hga : getAction actionId with
    | none => exact ⟨_, rfl⟩
    | some a =>
      dsimp only
      by_cases hr : env.maxRing < a.ring
      · rw [if_pos hr]; exact ⟨_, rfl⟩
      · rw [if_neg hr]
        by_cases hm : (a.requiresParams.filter
            (fun q => (List.lookup q params).isNone)).isEmpty
        · rw [if_neg (by simp [hm])]
          cases hlr : List.lookup "rate_mbps" params with
          | none =>
            dsimp only
            cases hls : List.lookup "selector" params with
            | none =>
              dsimp only
              cases hlp : List.lookup "pid" params with
              | none => exact ⟨_, rfl⟩
              | some w =>
                dsimp only
                cases hw : pyIntConvertible w with
                | true => exact ⟨_, rfl⟩
                | false => exact ⟨_, rfl⟩
            | some v =>
              have hv := hsel v hls
              cases v with
              | str s =>
                dsimp only [pyStripEmpty]
                cases hss : decide (pyStrip s = "") with
                | true => exact ⟨_, rfl⟩
                | false =>
                  cases hlp : List.lookup "pid" params with
                  | none => exact ⟨_, rfl⟩
                  | some w =>
                    dsimp only
                    cases hw : pyIntConvertible w with
                    | true => exact ⟨_, rfl⟩
                    | false => exact ⟨_, rfl⟩
              | int n => simp [isStrPV] at hv
              | num q => simp [isStrPV] at hv
              | bool b => simp [isStrPV] at hv
              | pynone => simp [isStrPV] at hv
          | some v =>
            have hv := hrate v hlr
            have hok : ∀ c : Bool, pyLeZero v = .ok c →
                ∃ r, (do
                  let y ← pyLeZero v
                  if y = true then
                    pure { success := false,
                           message := "Invalid rate_mbps: must be positive" }
                  else
                    (do
                      let selBad ← match List.lookup "selector" params with
                        | some v2 => pyStripEmpty v2
                        | none => pure false
                      if selBad = true then
                        pure { success := false,
                               message := "Invalid selector: cannot be empty" }
                      else
                        let pidBad := match List.lookup "pid" params with
                          | some v2 => ! pyIntConvertible v2
                          | none => false
                        if pidBad = true then
                          pure { success := false,
                                 message := "Invalid pid: must be integer" }
                        else
                          pure (dispatch env actionId params
                            ((List.lookup "ttl_seconds" params).getD
                              (PVal.int a.ttlSeconds))
                            (computeProof env actionId params)) :
                      Except PyErr ActuationResult)) = Except.ok r := by
              intro c hc
              rw [hc]
              show ∃ r, (if c = true then _ else _) = Except.ok r
              cases c with
              | true => exact ⟨_, rfl⟩
              | false =>
                dsimp only
                cases hls : List.lookup "selector" params with
                | none =>
                  dsimp only
                  cases hlp : List.lookup "pid" params with
                  | none => exact ⟨_, rfl⟩
                  | some w =>
                    dsimp only
                    cases hw : pyIntConvertible w with
                    | true => exact ⟨_, rfl⟩
                    | false => exact ⟨_, rfl⟩
                | some v2 =>
                  have hv2 := hsel v2 hls
                  cases v2 with
                  | str s =>
                    dsimp only [pyStripEmpty]
                    cases hss : decide (pyStrip s = "") with
                    | true => exact ⟨_, rfl⟩
                    | false =>
                      cases hlp : List.lookup "pid" params with
                      | none => exact ⟨_, rfl⟩
                      | some w =>
                        dsimp only
                        cases hw : pyIntConvertible w with
                        | true => exact ⟨_, rfl⟩
                        | false => exact ⟨_, rfl⟩
                  | int n => simp [isStrPV] at hv2
                  | num q => simp [isStrPV] at hv2
                  | bool b => simp [isStrPV] at hv2
                  | pynone => simp [isStrPV] at hv2
            cases v with
            | int n => exact hok _ rfl
            | num q => exact hok _ rfl
            | bool b => exact hok _ rfl
            | str s => simp [isNumericPV] at hv
            | pynone => simp [isNumericPV] at hv
        · rw [if_pos (by simp [hm])]
          exact ⟨_, rfl⟩
  · intro h
    unfold execute
    rw [h]
    rfl
  · intro a ha hr
    unfold execute
    rw [ha]
    dsimp only
    rw [if_pos hr]
    rfl
  · intro a ha hr hm
    unfold execute
    rw [ha]
    dsimp only
    rw [if_neg hr, if_pos (by simp [hm])]
    rfl
  · intro a v ha hr hm hlr hvz
    unfold execute
    rw [ha]
    dsimp only
    rw [if_neg hr, if_neg (by simp [hm]), hlr]
    dsimp only
    rw [hvz]
    rfl
  · intro a s ha hr hm hlr hls hstrip
    unfold execute
    rw [ha]
    dsimp only
    rw [if_neg hr, if_neg (by simp [hm]), hlr]
    dsimp only
    rw [hls]
    dsimp only [pyStripEmpty]
    rw [show decide (pyStrip s = "") = true by simp [hstrip]]
    rfl
  · intro a v ha hr hm hlr hls hlp hconv
    unfold execute
    rw [ha]
    dsimp only
    rw [if_neg hr, if_neg (by simp [hm]), hlr]
    dsimp only
    rw [hls]
    dsimp only
    rw [hlp]
    dsimp only
    rw [hconv]
    rfl
  · intro ps ttl pf out hdry hcmd
    rw [dispatch]
    simp only [beq_self_eq_true, if_true, runCmdModel, hdry, Bool.false_eq_true,
      if_false, hcmd]

/-- C7 counterexample: a non-string `selector` parameter reaches the
pre-`try` validation `params["selector"].strip()` and the `AttributeError`
escapes `execute` — it does propagate an exception to the caller. -/
theorem C7_counterexample :
    execute sampleCatEnv "networkpolicy_isolate"
      [("namespace", .str "d"), ("selector", .int 5)] = .error .attributeError :=
  rfl

/-- Witness for C7 (amended): an unknown action id yields a failure value. -/
theorem C7_execute_returns_values_witness :
    execute sampleCatEnv "zap" [] =
      .ok { success := false, message := "Unknown action: " ++ "zap" } :=
  (C7_execute_returns_values sampleCatEnv "zap" []
    (by intro v h; cases h) (by intro v h; cases h)).2.1 rfl

end MicroAct

end ASwarm
